import Mathlib

/-!
Verification development for the Atlas TNR ingestion scripts.

Shallow embedding of the Python sources:
  scripts/ingest/ingest_airtable_trapping_requests.py
  archive/cockpit_snapshot/scripts/generate_people_match_candidates.py
  archive/cockpit_snapshot/scripts/ingest_clinichq_upcoming_appointments.py
  archive/cockpit_snapshot/scripts/ingest_airtable_appointment_requests.py

Modelling conventions:
  - Python strings are Lean `String`s; `None`-able values are `Option`s.
  - CSV/dict rows are association lists `List (String × String)` with
    Python-dict semantics (unique keys, insertion order, last write wins).
  - Python floats (only latitude/longitude, never compared) are modelled
    as exact rationals `ℚ`; `round(x, 3)` is exact banker's rounding.
  - SQL upserts are pure functions on an explicit in-memory database
    state; `COALESCE(EXCLUDED.c, t.c)` is `coalesce new old` below.
  - The scripts probe the live schema for optional columns (`has_col`);
    the embedding fixes the full, current schema (every probed column
    present), which is the configuration all the claims are about.
  - `NOW()` timestamps are an abstract instant threaded as a parameter
    where a claim can observe one, and dropped where none can.
-/

namespace Atlas

/-- Python truthiness of an optional string: `None` and `""` are falsy. -/
def pyTruthy : Option String → Bool
  | none => false
  | some s => s ≠ ""

/-- Python `x or None` for a plain string: blank becomes `None`. -/
def optStr (s : String) : Option String :=
  if s = "" then none else some s

/-- Python `x or None` for an optional string: `Some ""` becomes `None`. -/
def pyOrNone : Option String → Option String
  | none => none
  | some s => if s = "" then none else some s

/-- Python `x or None` for an optional int: falsy `Some 0` becomes `None`. -/
def pyOrNoneInt : Option Int → Option Int
  | none => none
  | some n => if n = 0 then none else some n

/-- SQL `COALESCE(a, b)`: the first non-null of the two. -/
def coalesce {α : Type} : Option α → Option α → Option α
  | some a, _ => some a
  | none, b => b

/-- Whitespace class used by the Python `\s` regexes and `.strip()`. -/
def isPyWs (c : Char) : Bool :=
  c = ' ' ∨ c = '\t' ∨ c = '\n' ∨ c = '\r' ∨ c = '\x0b' ∨ c = '\x0c'

/-- Collapse every maximal whitespace run to a single space
(the effect of `re.sub(r"\s+", " ", s)`); `prevWs` records whether the
previous character was part of a whitespace run. -/
def squashWsAux : Bool → List Char → List Char
  | _, [] => []
  | prevWs, c :: rest =>
    if isPyWs c then
      if prevWs then squashWsAux true rest
      else ' ' :: squashWsAux true rest
    else c :: squashWsAux false rest

/-- Python `.strip()` restricted to the same whitespace class. -/
def pyStrip (s : String) : String :=
  ⟨(s.data.dropWhile isPyWs).reverse.dropWhile isPyWs |>.reverse⟩

/-- Python `.lower()` (ASCII model), character by character. -/
def pyLower (s : String) : String :=
  ⟨s.data.map Char.toLower⟩

/-- `norm_ws` (all four scripts): collapse internal whitespace, then strip. -/
def norm_ws (s : String) : String :=
  pyStrip ⟨squashWsAux false s.data⟩

/-- Character class of the keep-basic-address-chars regex: word
characters (ASCII model of `\w`), whitespace, `#`, `/`, `-`. -/
def isAddrChar (c : Char) : Bool :=
  c.isAlphanum ∨ c = '_' ∨ isPyWs c ∨ c = '#' ∨ c = '/' ∨ c = '-'

/-- `normalize_text` (trapping ingest): lowercase, drop characters other
than word characters, whitespace, `#`, `/`, `-`, collapse whitespace. -/
def normalize_text (s : String) : String :=
  let lowered := pyLower (pyStrip s)
  let kept : List Char := lowered.data.filter isAddrChar
  norm_ws ⟨kept⟩

/-- `normalize_phone` (trapping ingest and candidate generator): digits
only, with a leading `1` dropped from 11-digit numbers. -/
def normalize_phone (s : String) : String :=
  let digits : List Char := s.data.filter Char.isDigit
  let digits :=
    if digits.length = 11 ∧ digits.headD ' ' = '1' then digits.tail else digits
  ⟨digits⟩

/-- Association-list lookup with Python-dict `d[k]` / `k in d` semantics. -/
def dictGet (m : List (String × String)) (k : String) : Option String :=
  (m.find? (fun kv => kv.1 = k)).map (fun kv => kv.2)

/-- Python-dict assignment `d[k] = v`: replace in place or append. -/
def dictInsert : List (String × String) → String → String → List (String × String)
  | [], k, v => [(k, v)]
  | kv :: rest, k, v =>
    if kv.1 = k then (k, v) :: rest else kv :: dictInsert rest k v

/-- A CSV row as the `csv.DictReader` dict: header name to cell text. -/
def Row : Type := List (String × String)

/-- `normalize_csv_headers`: map each trimmed header to its original. -/
def normalize_csv_headers (fieldnames : List String) : List (String × String) :=
  fieldnames.foldl (fun m orig => dictInsert m (pyStrip orig) orig) []

/-- One probe of `get_field` for a single key: the stripped cell if the
key is present with non-blank content. -/
def getFieldAt (row : Row) (k : String) : Option String :=
  match dictGet row k with
  | some v => if pyStrip v ≠ "" then some (pyStrip v) else none
  | none => none

/-- `get_field` (trapping ingest): first non-blank cell over the given
keys, each tried directly and then through the cleaned-header map. -/
def get_field (row : Row) (headerMap : List (String × String)) :
    List String → String
  | [] => ""
  | k :: ks =>
    match getFieldAt row k with
    | some v => v
    | none =>
      match dictGet headerMap k with
      | some orig =>
        match getFieldAt row orig with
        | some v => v
        | none => get_field row headerMap ks
      | none => get_field row headerMap ks

/-- `first_present` (appointment-requests ingest): first non-blank cell. -/
def first_present (row : Row) : List String → String
  | [] => ""
  | k :: ks =>
    match getFieldAt row k with
    | some v => v
    | none => first_present row ks

/-- `is_blank_row` (trapping ingest): every cell blank after stripping. -/
def is_blank_row (row : Row) : Bool :=
  row.all (fun kv => pyStrip kv.2 = "")

/-! SHA-256 (FIPS 180-4), executable over `Nat`, words reduced mod 2^32.
Used by the `hashlib.sha256(...).hexdigest()` calls of the ingest
scripts; the change-detection theorems never unfold the compression. -/

/-- Addition of 32-bit words. -/
def add32 (a b : Nat) : Nat := (a + b) % 4294967296

/-- Right rotation of a 32-bit word by `n` places. -/
def rotr32 (n x : Nat) : Nat := x / 2 ^ n + x % 2 ^ n * 2 ^ (32 - n)

/-- Bitwise complement of a 32-bit word. -/
def not32 (x : Nat) : Nat := Nat.xor x 4294967295

/-- SHA-256 message-schedule sigma-0. -/
def ssig0 (x : Nat) : Nat := Nat.xor (Nat.xor (rotr32 7 x) (rotr32 18 x)) (x / 2 ^ 3)

/-- SHA-256 message-schedule sigma-1. -/
def ssig1 (x : Nat) : Nat := Nat.xor (Nat.xor (rotr32 17 x) (rotr32 19 x)) (x / 2 ^ 10)

/-- SHA-256 compression Sigma-0. -/
def bsig0 (x : Nat) : Nat := Nat.xor (Nat.xor (rotr32 2 x) (rotr32 13 x)) (rotr32 22 x)

/-- SHA-256 compression Sigma-1. -/
def bsig1 (x : Nat) : Nat := Nat.xor (Nat.xor (rotr32 6 x) (rotr32 11 x)) (rotr32 25 x)

/-- SHA-256 choice function. -/
def sha2ch (x y z : Nat) : Nat := Nat.xor (Nat.land x y) (Nat.land (not32 x) z)

/-- SHA-256 majority function. -/
def sha2maj (x y z : Nat) : Nat :=
  Nat.xor (Nat.xor (Nat.land x y) (Nat.land x z)) (Nat.land y z)

/-- The 64 SHA-256 round constants (decimal). -/
def sha2K : List Nat :=
  [1116352408, 1899447441, 3049323471, 3921009573, 961987163,
   1508970993, 2453635748, 2870763221, 3624381080, 310598401,
   607225278, 1426881987, 1925078388, 2162078206, 2614888103,
   3248222580, 3835390401, 4022224774, 264347078, 604807628,
   770255983, 1249150122, 1555081692, 1996064986, 2554220882,
   2821834349, 2952996808, 3210313671, 3336571891, 3584528711,
   113926993, 338241895, 666307205, 773529912, 1294757372,
   1396182291, 1695183700, 1986661051, 2177026350, 2456956037,
   2730485921, 2820302411, 3259730800, 3345764771, 3516065817,
   3600352804, 4094571909, 275423344, 430227734, 506948616,
   659060556, 883997877, 958139571, 1322822218, 1537002063,
   1747873779, 1955562222, 2024104815, 2227730452, 2361852424,
   2428436474, 2756734187, 3204031479, 3329325298]

/-- The SHA-256 initial hash value (decimal). -/
def sha2H0 : List Nat :=
  [1779033703, 3144134277, 1013904242, 2773480762,
   1359893119, 2600822924, 528734635, 1541459225]

/-- Group a byte list into big-endian 32-bit words, four bytes each. -/
def wordsOfBytes : List Nat → List Nat
  | b0 :: b1 :: b2 :: b3 :: rest =>
    (((b0 * 256 + b1) * 256 + b2) * 256 + b3) :: wordsOfBytes rest
  | _ => []

/-- Extend sixteen schedule words to the full sixty-four. -/
def extendWords (w : List Nat) : List Nat :=
  (List.range 48).foldl
    (fun acc _ =>
      let i := acc.length
      acc ++ [add32 (add32 (acc.getD (i - 16) 0) (ssig0 (acc.getD (i - 15) 0)))
                    (add32 (acc.getD (i - 7) 0) (ssig1 (acc.getD (i - 2) 0)))])
    w

/-- One SHA-256 round on the eight-word working state. -/
def sha2Round (st : List Nat) (kw : Nat × Nat) : List Nat :=
  match st with
  | [a, b, c, d, e, f, g, h] =>
    let t1 := add32 (add32 (add32 h (bsig1 e)) (add32 (sha2ch e f g) kw.1)) kw.2
    let t2 := add32 (bsig0 a) (sha2maj a b c)
    [add32 t1 t2, a, b, c, add32 d t1, e, f, g]
  | other => other

/-- Compress one 64-byte block into the running hash value. -/
def sha2Compress (h : List Nat) (block : List Nat) : List Nat :=
  let ws := extendWords (wordsOfBytes block)
  let st := (sha2K.zip ws).foldl sha2Round h
  (h.zip st).map (fun p => add32 p.1 p.2)

/-- Split a padded byte list into 64-byte blocks. -/
def sha2Blocks : List Nat → List (List Nat)
  | [] => []
  | b :: rest => ((b :: rest).take 64) :: sha2Blocks ((b :: rest).drop 64)
termination_by l => l.length
decreasing_by simp [List.length_drop]; omega

/-- Big-endian byte expansion of a number into `n` bytes. -/
def beBytes : Nat → Nat → List Nat
  | 0, _ => []
  | n + 1, v => beBytes n (v / 256) ++ [v % 256]

/-- SHA-256 of a byte list: the 32 digest bytes. -/
def sha256Bytes (msg : List Nat) : List Nat :=
  let padZeros := (119 - msg.length % 64) % 64
  let padded := msg ++ [0x80] ++ List.replicate padZeros 0 ++ beBytes 8 (msg.length * 8)
  let hFinal := (sha2Blocks padded).foldl sha2Compress sha2H0
  hFinal.foldr (fun w acc => beBytes 4 w ++ acc) []

/-- Lowercase hexadecimal digit for a value below 16. -/
def hexChar (n : Nat) : Char :=
  if n < 10 then Char.ofNat (48 + n) else Char.ofNat (87 + n)

/-- UTF-8 encoding of one character (Python `str.encode`). -/
def utf8Char (c : Char) : List Nat :=
  let n := c.toNat
  if n < 0x80 then [n]
  else if n < 0x800 then [0xc0 + n / 64, 0x80 + n % 64]
  else if n < 0x10000 then [0xe0 + n / 4096, 0x80 + n / 64 % 64, 0x80 + n % 64]
  else [0xf0 + n / 262144, 0x80 + n / 4096 % 64, 0x80 + n / 64 % 64, 0x80 + n % 64]

/-- UTF-8 encoding of a string as a byte list. -/
def utf8Encode (s : String) : List Nat :=
  s.data.foldr (fun c acc => utf8Char c ++ acc) []

/-- `hashlib.sha256(s.encode()).hexdigest()`. -/
def sha256HexOfString (s : String) : String :=
  ⟨(sha256Bytes (utf8Encode s)).foldr (fun b acc => hexChar (b / 16) :: hexChar (b % 16) :: acc) []⟩

/-- Truncated digest `hexdigest()[:32]` used by both `compute_row_hash`s. -/
def hashDigest32 (s : String) : String :=
  (sha256HexOfString s).take 32

/-! Content hashes (Identity Key Deriver, change-detection side). -/

/-- Python `"|".join(fields)`. -/
def pyJoin (sep : String) : List String → String
  | [] => ""
  | [x] => x
  | x :: xs => x ++ sep ++ pyJoin sep xs

/-- Python `str(x)` on an optional string (`str(None)` is `"None"`). -/
def pyStr : Option String → String
  | none => "None"
  | some s => s

/-- Python `str(x)` on an optional int (`str(None)` is `"None"`). -/
def pyStrInt : Option Int → String
  | none => "None"
  | some n => toString n

/-- The `normalized` dict built by `upsert_appointment` (ClinicHQ
upcoming-appointments ingest) and passed to its `compute_row_hash`. -/
structure ApptNormRow where
  appt_date : Option String
  appt_number : Option Int
  client_first_name : String
  client_last_name : String
  client_address : String
  animal_name : String
  client_email : String
  client_cell_phone : Option String
  client_phone : Option String
deriving DecidableEq

/-- The `content_fields` list of `compute_row_hash` (ClinicHQ ingest),
in source order. -/
def contentFieldsCHQ (r : ApptNormRow) : List String :=
  [pyStr r.appt_date,
   pyStrInt r.appt_number,
   norm_ws r.client_first_name,
   norm_ws r.client_last_name,
   norm_ws r.client_address,
   norm_ws r.animal_name,
   norm_ws r.client_email,
   pyStr r.client_cell_phone,
   pyStr r.client_phone]

/-- The joined digest input of `compute_row_hash` (ClinicHQ ingest). -/
def contentStringCHQ (r : ApptNormRow) : String :=
  pyJoin "|" (contentFieldsCHQ r)

/-- `compute_row_hash` (ClinicHQ upcoming-appointments ingest). -/
def compute_row_hash_chq (r : ApptNormRow) : String :=
  hashDigest32 (contentStringCHQ r)

/-- The `content_fields` list of `compute_row_hash` (Airtable
appointment-requests ingest), in source order; entries are already
strings so the `str(f)` in the join is the identity. -/
def contentFieldsAT (row : Row) : List String :=
  [first_present row ["New Submitted", "New Submitted / Former Created Date", "Former Created Date"],
   first_present row ["Name", "name"],
   first_present row ["First Name", "first_name"],
   first_present row ["Last Name", "last_name"],
   first_present row ["Email", "email"],
   first_present row ["Best phone number to reach you", "Phone", "phone"],
   first_present row ["Street address where cats are located", "cats_address"],
   first_present row ["Clean Address (Cats)", "Clean Address"],
   first_present row ["Notes", "notes"],
   first_present row ["Submission Status", "Status"],
   first_present row ["Appointment Date", "appointment_date"]]

/-- The joined digest input of `compute_row_hash` (Airtable ingest). -/
def contentStringAT (row : Row) : String :=
  pyJoin "|" (contentFieldsAT row)

/-- `compute_row_hash` (Airtable appointment-requests ingest). -/
def compute_row_hash_at (row : Row) : String :=
  hashDigest32 (contentStringAT row)

/-! Match Candidate Generator (generate_people_match_candidates.py). -/

/-- Replace the first list element satisfying `p` by its image under `f`
(the effect of a SQL `UPDATE`/upsert touching one keyed row). -/
def updateFirst {α : Type} (p : α → Bool) (f : α → α) : List α → List α
  | [] => []
  | x :: xs => if p x then f x :: xs else x :: updateFirst p f xs

/-- `normalize_phone` (candidate generator): digits only, leading `1`
stripped from 11-digit numbers, `None` for no digits. -/
def normalize_phone_cand (phone : Option String) : Option String :=
  match phone with
  | none => none
  | some s => optStr (normalize_phone s)

/-- `normalize_name`: lowercase, strip, collapse internal whitespace. -/
def normalize_name (name : String) : String :=
  if name = "" then ""
  else ⟨squashWsAux false (pyStrip (pyLower name)).data⟩

/-- Inner loop of the Levenshtein dynamic program: extend the current
row along `s2`, carrying the tail of the previous row and the last value
appended to the current row. -/
def levRowAux (c1 : Char) : List Char → List Nat → Nat → List Nat
  | [], _, _ => []
  | c2 :: s2rest, prev, lastCur =>
    match prev with
    | p0 :: p1 :: prest =>
      let ins := p1 + 1
      let del := lastCur + 1
      let sub := p0 + (if c1 = c2 then 0 else 1)
      let cur := min ins (min del sub)
      cur :: levRowAux c1 s2rest (p1 :: prest) cur
    | _ => []

/-- One outer-loop step: the full current row for character `c1` at
outer index `i`, given the previous row. -/
def levRow (c1 : Char) (s2 : List Char) (i : Nat) (prev : List Nat) : List Nat :=
  (i + 1) :: levRowAux c1 s2 prev (i + 1)

/-- The dynamic program of `levenshtein_distance`, assuming the first
argument is at least as long as the second. -/
def levenshteinCore (s1 s2 : List Char) : Nat :=
  if s2.length = 0 then s1.length
  else
    ((s1.foldl (fun acc c1 => (levRow c1 s2 acc.2 acc.1, acc.2 + 1))
        (List.range (s2.length + 1), 0)).1).getLastD 0

/-- `levenshtein_distance`: swap so the longer string comes first, then
run the row dynamic program. -/
def levenshtein_distance (s1 s2 : String) : Nat :=
  if s1.length < s2.length then levenshteinCore s2.data s1.data
  else levenshteinCore s1.data s2.data

/-- `name_similarity`: normalized edit-distance similarity on the 0-1
scale, `0` when either normalized name is empty. -/
def name_similarity (name1 name2 : String) : ℚ :=
  let n1 := normalize_name name1
  let n2 := normalize_name name2
  if n1 = "" ∨ n2 = "" then 0
  else
    let maxLen := max n1.length n2.length
    if maxLen = 0 then 0
    else max 0 (1 - (levenshtein_distance n1 n2 : ℚ) / (maxLen : ℚ))

/-- Python `round(q, 3)` modelled exactly over the rationals: round half
to even at the third decimal. -/
def roundHalfEven (q : ℚ) : ℤ :=
  if q - (⌊q⌋ : ℚ) < 1 / 2 then ⌊q⌋
  else if 1 / 2 < q - (⌊q⌋ : ℚ) then ⌊q⌋ + 1
  else if ⌊q⌋ % 2 = 0 then ⌊q⌋ else ⌊q⌋ + 1

/-- Rounding to three decimals, as `round(x, 3)` in the generator. -/
def pyRound3 (q : ℚ) : ℚ :=
  (roundHalfEven (q * 1000) : ℚ) / 1000

/-- The tier expression of `calculate_match`'s evidence document. -/
def tierOf (confidence : ℚ) : Nat :=
  if 19 / 20 ≤ confidence then 0
  else if 4 / 5 ≤ confidence then 1
  else if 1 / 2 ≤ confidence then 2
  else 3

/-- One unlinked source record as loaded by the candidate generator. -/
structure SourceRecord where
  source_system : String
  source_record_id : String
  display_name : String
  email : Option String
  phone : Option String
  phone_normalized : Option String
  address_display : Option String
deriving DecidableEq

/-- One canonical person as loaded by the candidate generator; note the
source type has no address field. -/
structure CanonicalPerson where
  person_id : String
  display_name : String
  email : Option String
  phone : Option String
  phone_normalized : Option String
deriving DecidableEq

/-- The structured evidence document of a match candidate. -/
structure Evidence where
  matched_on : List String
  phone_match : Bool
  email_match : Bool
  name_similarity : ℚ
  tier : Nat
  source_name : String
  source_email : Option String
  source_phone : Option String
deriving DecidableEq

/-- A generated match candidate. -/
structure MatchCandidate where
  source_system : String
  source_record_id : String
  candidate_person_id : String
  confidence : ℚ
  evidence : Evidence
deriving DecidableEq

/-- The signal-accumulation part of `calculate_match` (lines 138-167):
the `matched_on` list, the raw (pre-rounding) confidence, and the
computed name similarity. -/
def calcSignals (source : SourceRecord) (person : CanonicalPerson) :
    List String × ℚ × ℚ :=
  let spn := source.phone_normalized.getD ""
  let ppn := person.phone_normalized.getD ""
  let phoneHit := spn ≠ "" ∧ ppn ≠ "" ∧ spn = ppn ∧ 10 ≤ spn.length
  let matched1 : List String := if phoneHit then ["phone_normalized"] else []
  let conf1 : ℚ := if phoneHit then max 0 1 else 0
  let se := source.email.getD ""
  let pe := person.email.getD ""
  let emailHit := se ≠ "" ∧ pe ≠ "" ∧ pyStrip (pyLower se) = pyStrip (pyLower pe)
  let matched2 := if emailHit then matched1 ++ ["email"] else matched1
  let conf2 := if emailHit then max conf1 (49 / 50) else conf1
  let nameSim := name_similarity source.display_name person.display_name
  let nameHit := 7 / 10 ≤ nameSim
  let areaHit := spn ≠ "" ∧ ppn ≠ "" ∧ 3 ≤ spn.length ∧ 3 ≤ ppn.length ∧
    spn.take 3 = ppn.take 3
  let matched3 :=
    if nameHit then
      if areaHit then matched2 ++ ["name_fuzzy", "area_code"]
      else matched2 ++ ["name_fuzzy"]
    else matched2
  let conf3 :=
    if nameHit then
      if areaHit then max conf2 (17 / 20 + nameSim * (1 / 10))
      else max conf2 (1 / 2 + nameSim * (3 / 10))
    else conf2
  (matched3, conf3, nameSim)

/-- The raw confidence computed by `calculate_match` before rounding. -/
def rawConfidence (source : SourceRecord) (person : CanonicalPerson) : ℚ :=
  (calcSignals source person).2.1

/-- `calculate_match`: `None` when no signal fired or the confidence is
below the 0.40 floor, otherwise the rounded candidate with evidence. -/
def calculate_match (source : SourceRecord) (person : CanonicalPerson) :
    Option MatchCandidate :=
  let sig := calcSignals source person
  let matched_on := sig.1
  let confidence := sig.2.1
  let nameSim := sig.2.2
  if matched_on = [] ∨ confidence < 2 / 5 then none
  else some
    { source_system := source.source_system
      source_record_id := source.source_record_id
      candidate_person_id := person.person_id
      confidence := pyRound3 confidence
      evidence :=
        { matched_on := matched_on
          phone_match := matched_on.contains "phone_normalized"
          email_match := matched_on.contains "email"
          name_similarity := pyRound3 nameSim
          tier := tierOf confidence
          source_name := source.display_name
          source_email := source.email
          source_phone := source.phone } }

/-- A stored row of `person_match_candidates`. -/
structure CandidateRow where
  source_system : String
  source_record_id : String
  candidate_person_id : String
  confidence : ℚ
  evidence : Evidence
  status : String
deriving DecidableEq

/-- Key match on the unique `(source_system, source_record_id,
candidate_person_id)` triple. -/
def candidateKeyMatches (c : MatchCandidate) (r : CandidateRow) : Bool :=
  r.source_system = c.source_system ∧ r.source_record_id = c.source_record_id ∧
    r.candidate_person_id = c.candidate_person_id

/-- One insert of `upsert_candidates`: on conflict of the triple,
confidence becomes `GREATEST(old, new)` and the evidence is replaced;
otherwise a fresh `open` row is inserted. -/
def upsert_candidate (store : List CandidateRow) (c : MatchCandidate) :
    List CandidateRow :=
  match store.find? (candidateKeyMatches c) with
  | some _ =>
    updateFirst (candidateKeyMatches c)
      (fun r => { r with confidence := max r.confidence c.confidence,
                         evidence := c.evidence })
      store
  | none =>
    store ++ [{ source_system := c.source_system,
                source_record_id := c.source_record_id,
                candidate_person_id := c.candidate_person_id,
                confidence := c.confidence,
                evidence := c.evidence,
                status := "open" }]

/-- `upsert_candidates`: the per-candidate loop over one batch. -/
def upsert_candidates (store : List CandidateRow) (cs : List MatchCandidate) :
    List CandidateRow :=
  cs.foldl upsert_candidate store

/-! Snapshot Staleness Tracker (ingest_clinichq_upcoming_appointments.py). -/

/-- A stored row of `clinichq_upcoming_appointments`, restricted to the
columns the staleness pass reads or writes plus representative content
columns; `appt_date` is the business date, modelled as an integer day. -/
structure ApptRecord where
  source_pk : String
  source_file : String
  source_row_hash : String
  appt_date : Int
  last_seen_run_id : Option String
  is_current : Bool
  stale_at : Option Int
deriving DecidableEq

/-- `mark_stale_in_window`: the `UPDATE ... WHERE is_current = true AND
appt_date BETWEEN coverage_start AND coverage_end AND last_seen_run_id
IS DISTINCT FROM this run` pass, applied at instant `now`. -/
def mark_stale_in_window (run_id : String) (coverage_start coverage_end : Int)
    (now : Int) (tbl : List ApptRecord) : List ApptRecord :=
  tbl.map (fun r =>
    if r.is_current = true ∧ coverage_start ≤ r.appt_date ∧
        r.appt_date ≤ coverage_end ∧
        (r.last_seen_run_id = none ∨ r.last_seen_run_id ≠ some run_id) then
      { r with is_current := false, stale_at := some now }
    else r)

/-! Trapping-requests ingest (ingest_airtable_trapping_requests.py):
status coercions, database model, upserts, and the per-row pipeline. -/

/-- The explicit Case Status mapping table of `coerce_request_status`. -/
def statusMapping : List (String × String) :=
  [("new", "new"), ("requested", "new"), ("needs attention", "needs_review"),
   ("need to re-book", "needs_review"), ("need to re book", "needs_review"),
   ("in progress", "in_progress"), ("partially complete", "in_progress"),
   ("revisit", "active"), ("complete/closed", "closed"),
   ("complete / closed", "closed"), ("complete", "closed"),
   ("closed", "closed"), ("hold", "paused"),
   ("referred elsewhere", "resolved"), ("duplicate request", "closed"),
   ("duplicate", "closed"), ("denied", "closed")]

/-- The closed `trapper.request_status` enumeration. -/
def allowedStatuses : List String :=
  ["new", "needs_review", "active", "scheduled", "in_progress", "paused",
   "resolved", "closed"]

/-- Collapse every run of characters outside `a-z0-9` into one `_` (the
snake-case fallback regex of `coerce_request_status`). -/
def squashNonAlnumAux : Bool → List Char → List Char
  | _, [] => []
  | prevBad, c :: rest =>
    if c.isLower ∨ c.isDigit then c :: squashNonAlnumAux false rest
    else if prevBad then squashNonAlnumAux true rest
    else '_' :: squashNonAlnumAux true rest

/-- The snake-case candidate: squash non-alphanumerics, strip `_`. -/
def snakeCandidate (s0 : String) : String :=
  ⟨((squashNonAlnumAux false s0.data).dropWhile (fun c => c = '_')).reverse.dropWhile
      (fun c => c = '_') |>.reverse⟩

/-- `coerce_request_status`: map raw Case Status text to the status
enumeration, `None` (with a logged warning at the call site) otherwise. -/
def coerce_request_status (raw : String) : Option String :=
  let s := pyStrip raw
  if s = "" then none
  else
    let s0 := norm_ws (pyLower s)
    match dictGet statusMapping s0 with
    | some v => some v
    | none =>
      let candidate := snakeCandidate s0
      if allowedStatuses.contains candidate then some candidate else none

/-- `coerce_archive_reason`: raw Case Status text to archive reason. -/
def coerce_archive_reason (raw_status : String) : Option String :=
  let s := pyLower (pyStrip raw_status)
  if s = "" then none
  else
    let s := norm_ws s
    if s = "duplicate request" ∨ s = "duplicate" ∨ s = "dup" then some "duplicate"
    else if s = "denied" then some "denied"
    else if s = "referred elsewhere" ∨ s = "referred" ∨ s = "refer elsewhere" then
      some "referred_elsewhere"
    else none

/-- First maximal digit run of a character list, if any (`re.search` of
one-or-more digits). -/
def firstDigitRun : List Char → Option (List Char)
  | [] => none
  | c :: rest =>
    if c.isDigit then some (c :: rest.takeWhile Char.isDigit)
    else firstDigitRun rest

/-- Numeric value of a digit run. -/
def natOfDigits (ds : List Char) : Nat :=
  ds.foldl (fun n c => n * 10 + (c.toNat - 48)) 0

/-- The priority word table of `coerce_priority_smallint`. -/
def priorityWordMap : List (String × Int) :=
  [("low", 1), ("medium", 2), ("med", 2), ("high", 3), ("urgent", 4),
   ("critical", 5)]

/-- `coerce_priority_smallint`: first embedded number, else word scale. -/
def coerce_priority_smallint (raw : String) : Option Int :=
  let s := pyStrip raw
  if s = "" then none
  else
    match firstDigitRun s.data with
    | some ds => some (natOfDigits ds : Int)
    | none =>
      let s0 := norm_ws (pyLower s)
      (priorityWordMap.find? (fun kv => kv.1 = s0)).map (fun kv => kv.2)

/-- `parse_float`, with Python floats modelled as exact rationals; the
model accepts plain signed decimal literals (the shapes latitude and
longitude cells take) and returns `None` otherwise. -/
def parseFloatLit (cs : List Char) : Option ℚ :=
  let signed : ℚ × List Char :=
    match cs with
    | '-' :: r => (-1, r)
    | '+' :: r => (1, r)
    | r => (1, r)
  let intPart := signed.2.takeWhile Char.isDigit
  let rest := signed.2.dropWhile Char.isDigit
  match rest with
  | [] => if intPart = [] then none else some (signed.1 * natOfDigits intPart)
  | '.' :: frac =>
    if frac.all Char.isDigit ∧ (intPart ≠ [] ∨ frac ≠ []) then
      some (signed.1 *
        ((natOfDigits intPart : ℚ) + (natOfDigits frac : ℚ) / (10 ^ frac.length : ℚ)))
    else none
  | _ => none

/-- `parse_float`: strip, blank is `None`, else parse the literal. -/
def parse_float (s : String) : Option ℚ :=
  let t := pyStrip s
  if t = "" then none else parseFloatLit t.data

/-- A stored row of `trapper.addresses`. -/
structure AddressRow where
  id : Nat
  address_key : String
  raw_address : String
  formatted_address : Option String
  latitude : Option ℚ
  longitude : Option ℚ
  geom : Option (ℚ × ℚ)
deriving DecidableEq

/-- A stored row of `trapper.places`. -/
structure PlaceRow where
  id : Nat
  place_key : String
  display_name : String
  address_id : Option Nat
deriving DecidableEq

/-- A stored row of `trapper.people`. -/
structure PersonRow where
  id : Nat
  person_key : String
  first_name : Option String
  last_name : Option String
  email : Option String
  phone : Option String
  phone_normalized : Option String
deriving DecidableEq

/-- A stored row of `trapper.requests`; `archived_at` is modelled as a
set/unset flag (the script only ever writes `now()` or keeps it). -/
structure RequestRow where
  id : Nat
  case_number : String
  source_record_id : Option String
  primary_place_id : Option Nat
  primary_contact_person_id : Option Nat
  status : Option String
  priority : Option Int
  priority_label : Option String
  notes : Option String
  archive_reason : Option String
  merged_into_case_number : Option String
  merged_into_source_record_id : Option String
  archived_at : Bool
deriving DecidableEq

/-- A stored row of `trapper.request_parties`. -/
structure PartyRow where
  request_id : Nat
  person_id : Nat
  role : String
deriving DecidableEq

/-- A stored row of `trapper.request_notes`. -/
structure NoteRow where
  request_id : Nat
  note_kind : String
  note_body : String
  note_key : String
  source_system : String
deriving DecidableEq

/-- The writable store of the trapping ingest, with a serial id counter.
The embedding fixes the full current schema: every optional column the
script probes with `has_col` is present. -/
structure DB where
  addresses : List AddressRow
  places : List PlaceRow
  people : List PersonRow
  requests : List RequestRow
  request_parties : List PartyRow
  request_notes : List NoteRow
  nextId : Nat
deriving DecidableEq

/-- Modelled from the spec: the DB-side function `trapper.normalize_phone`
applied by `upsert_person` is not part of the repository sources; the
spec's Person carries a normalized phone, so it is modelled by the
script's own digit normalization. No claim depends on its values. -/
def dbNormalizePhone (s : String) : String :=
  normalize_phone s

/-- The `address_key` derivation of `upsert_address`. -/
def addressKeyOf (raw_addr : String) : String :=
  "addr:" ++ normalize_text raw_addr

/-- The `place_key` derivation of `upsert_place`. -/
def placeKeyOf (place_name raw_addr : String) : String :=
  let base_key := if raw_addr ≠ "" then "addr:" ++ normalize_text raw_addr else "addr:unknown"
  let pname := if place_name ≠ "" then normalize_text place_name else ""
  "place:" ++ (if pname ≠ "" then pname ++ "|" ++ base_key else base_key)

/-- The `ON CONFLICT DO UPDATE` clause of `upsert_address`: raw address
replaced, the rest coalesced (present wins over blank). -/
def addressMerge (raw_addr : String) (exFormatted : Option String)
    (lat lng : Option ℚ) (x : AddressRow) : AddressRow :=
  { x with raw_address := raw_addr,
           formatted_address := coalesce exFormatted x.formatted_address,
           latitude := coalesce lat x.latitude,
           longitude := coalesce lng x.longitude }

/-- `upsert_address`: keyed on `address_key`; on conflict the raw address
is replaced and formatted address, latitude and longitude are coalesced
(present wins over blank); `geom` is only written on insert. -/
def upsert_address (db : DB) (raw_addr : String) (lat lng : Option ℚ)
    (formatted : Option String) : DB × Option Nat × Bool :=
  if raw_addr = "" then (db, none, false)
  else
    let address_key := addressKeyOf raw_addr
    let exFormatted := pyOrNone formatted
    let exGeom : Option (ℚ × ℚ) :=
      match lat, lng with
      | some la, some lo => some (lo, la)
      | _, _ => none
    match db.addresses.find? (fun a => a.address_key = address_key) with
    | some a =>
      let tbl := updateFirst (fun x => x.address_key = address_key)
        (addressMerge raw_addr exFormatted lat lng) db.addresses
      ({ db with addresses := tbl }, some a.id, false)
    | none =>
      ({ db with
          addresses := db.addresses ++
            [{ id := db.nextId, address_key := address_key,
               raw_address := raw_addr, formatted_address := exFormatted,
               latitude := lat, longitude := lng, geom := exGeom }],
          nextId := db.nextId + 1 },
       some db.nextId, true)

/-- The `ON CONFLICT DO UPDATE` clause of `upsert_place`: display name
replaced, `address_id` coalesced. -/
def placeMerge (display_name : String) (address_id : Option Nat)
    (x : PlaceRow) : PlaceRow :=
  { x with display_name := display_name,
           address_id := coalesce address_id x.address_id }

/-- `upsert_place`: keyed on `place_key`; on conflict the display name is
replaced and `address_id` is coalesced. -/
def upsert_place (db : DB) (address_id : Option Nat) (place_name raw_addr : String) :
    DB × Option Nat × Bool :=
  if raw_addr = "" ∧ place_name = "" then (db, none, false)
  else
    let place_key := placeKeyOf place_name raw_addr
    let display_name := if place_name ≠ "" then place_name else raw_addr
    match db.places.find? (fun p => p.place_key = place_key) with
    | some p =>
      let tbl := updateFirst (fun x => x.place_key = place_key)
        (placeMerge display_name address_id) db.places
      ({ db with places := tbl }, some p.id, false)
    | none =>
      ({ db with
          places := db.places ++
            [{ id := db.nextId, place_key := place_key,
               display_name := display_name, address_id := address_id }],
          nextId := db.nextId + 1 },
       some db.nextId, true)

/-- The `person_key` derivation of `upsert_person`: email, else
normalized phone, else normalized name; `None` when all are blank. -/
def personKeyOf (first last email phone : String) : Option String :=
  let email_n := pyLower (pyStrip email)
  let phone_n := normalize_phone phone
  if email_n ≠ "" then some ("email:" ++ email_n)
  else if phone_n ≠ "" then some ("phone:" ++ phone_n)
  else
    let name_n := normalize_text (first ++ " " ++ last)
    if name_n = "" then none else some ("name:" ++ name_n)

/-- The `ON CONFLICT DO UPDATE` clause of `upsert_person`: every field
coalesced (present wins over blank). -/
def personMerge (exFirst exLast exEmail exPhone exPhoneNorm : Option String)
    (x : PersonRow) : PersonRow :=
  { x with first_name := coalesce exFirst x.first_name,
           last_name := coalesce exLast x.last_name,
           email := coalesce exEmail x.email,
           phone := coalesce exPhone x.phone,
           phone_normalized := coalesce exPhoneNorm x.phone_normalized }

/-- `upsert_person`: keyed on the derived `person_key`; every field
update is a coalesce, so a present value never loses to a blank one. -/
def upsert_person (db : DB) (first last email phone : String) :
    DB × Option Nat × Bool :=
  let email_n := pyLower (pyStrip email)
  let phone_n := normalize_phone phone
  let phone_raw := pyStrip phone
  match personKeyOf first last email phone with
  | none => (db, none, false)
  | some person_key =>
    let exFirst := optStr first
    let exLast := optStr last
    let exEmail := optStr email_n
    let exPhone := optStr phone_n
    let exPhoneNorm := if phone_raw ≠ "" then some (dbNormalizePhone phone_raw) else none
    match db.people.find? (fun p => p.person_key = person_key) with
    | some p =>
      let tbl := updateFirst (fun x => x.person_key = person_key)
        (personMerge exFirst exLast exEmail exPhone exPhoneNorm) db.people
      ({ db with people := tbl }, some p.id, false)
    | none =>
      ({ db with
          people := db.people ++
            [{ id := db.nextId, person_key := person_key, first_name := exFirst,
               last_name := exLast, email := exEmail, phone := exPhone,
               phone_normalized := exPhoneNorm }],
          nextId := db.nextId + 1 },
       some db.nextId, true)

/-- The `ON CONFLICT DO UPDATE` clause of `upsert_request`: every content
field coalesced, and `archived_at`, once set, kept (`COALESCE(old, CASE
WHEN EXCLUDED.archive_reason IS NOT NULL THEN now() END)`). -/
def requestMerge (exSrc : Option String) (primary_place_id primary_person_id : Option Nat)
    (exStatus : Option String) (exPriority : Option Int)
    (exLabel exNotes exArchive exMCN exMSRI : Option String)
    (x : RequestRow) : RequestRow :=
  { x with source_record_id := coalesce exSrc x.source_record_id,
           primary_place_id := coalesce primary_place_id x.primary_place_id,
           primary_contact_person_id :=
             coalesce primary_person_id x.primary_contact_person_id,
           status := coalesce exStatus x.status,
           priority := coalesce exPriority x.priority,
           priority_label := coalesce exLabel x.priority_label,
           notes := coalesce exNotes x.notes,
           archive_reason := coalesce exArchive x.archive_reason,
           merged_into_case_number := coalesce exMCN x.merged_into_case_number,
           merged_into_source_record_id := coalesce exMSRI x.merged_into_source_record_id,
           archived_at := if x.archived_at then true else exArchive.isSome }

/-- `upsert_request`: keyed on `case_number`; every content field update
is a coalesce, and `archived_at`, once set, is kept (`COALESCE(old,
CASE WHEN EXCLUDED.archive_reason IS NOT NULL THEN now() END)`). -/
def upsert_request (db : DB) (case_number source_record_id : String)
    (primary_place_id primary_person_id : Option Nat) (status : Option String)
    (priority : Option Int) (priority_label : Option String) (notes : String)
    (archive_reason merged_into_case_number merged_into_source_record_id : Option String) :
    DB × Option Nat × Bool :=
  let exSrc := optStr source_record_id
  let exStatus := pyOrNone status
  let exPriority := pyOrNoneInt priority
  let exLabel := pyOrNone priority_label
  let exNotes := optStr notes
  let exArchive := pyOrNone archive_reason
  let exMCN := pyOrNone merged_into_case_number
  let exMSRI := pyOrNone merged_into_source_record_id
  match db.requests.find? (fun r => r.case_number = case_number) with
  | some r =>
    let tbl := updateFirst (fun x => x.case_number = case_number)
      (requestMerge exSrc primary_place_id primary_person_id exStatus exPriority
        exLabel exNotes exArchive exMCN exMSRI)
      db.requests
    ({ db with requests := tbl }, some r.id, false)
  | none =>
    ({ db with
        requests := db.requests ++
          [{ id := db.nextId, case_number := case_number, source_record_id := exSrc,
             primary_place_id := primary_place_id,
             primary_contact_person_id := primary_person_id, status := exStatus,
             priority := exPriority, priority_label := exLabel, notes := exNotes,
             archive_reason := exArchive, merged_into_case_number := exMCN,
             merged_into_source_record_id := exMSRI,
             archived_at := pyTruthy archive_reason }],
        nextId := db.nextId + 1 },
     some db.nextId, true)

/-- `upsert_request_party`: `INSERT ... ON CONFLICT DO NOTHING`; returns
whether a link row was actually inserted. -/
def upsert_request_party (db : DB) (request_id person_id : Nat) (role : String) :
    DB × Bool :=
  if db.request_parties.any
      (fun p => p.request_id = request_id ∧ p.person_id = person_id ∧ p.role = role) then
    (db, false)
  else
    ({ db with request_parties := db.request_parties ++
        [{ request_id := request_id, person_id := person_id, role := role }] },
     true)

/-- `upsert_request_note`: idempotent on `note_key`; returns
`(inserted, updated)`. -/
def upsert_request_note (db : DB) (request_id : Nat)
    (case_number note_kind note_body : String) : DB × Bool × Bool :=
  if note_body = "" then (db, false, false)
  else
    let body := pyStrip note_body
    if body = "" then (db, false, false)
    else
      let note_key := "airtable_trapping_requests::" ++ case_number ++ "::" ++ note_kind
      match db.request_notes.find? (fun n => n.note_key = note_key) with
      | some _ =>
        let tbl := updateFirst (fun n => n.note_key = note_key)
          (fun n => { n with note_body := body }) db.request_notes
        ({ db with request_notes := tbl }, false, true)
      | none =>
        ({ db with request_notes := db.request_notes ++
            [{ request_id := request_id, note_kind := note_kind, note_body := body,
               note_key := note_key, source_system := "airtable" }] },
         true, false)

/-- `lookup_case_number_by_source_record_id`: DB fallback for merge
targets from prior imports. -/
def lookup_case_number_by_source_record_id (db : DB) (source_record_id : String) :
    Option String :=
  if source_record_id = "" then none
  else
    (db.requests.find? (fun r => r.source_record_id = some source_record_id)).map
      (fun r => r.case_number)

/-- The record-id header names used by the pre-scan. -/
def ridKeysPrescan : List String :=
  ["Record ID", "record_id", "Airtable Record ID"]

/-- The case-number header names. -/
def caseKeys : List String :=
  ["Case Number", "case_number", "Case #", "CaseNumber"]

/-- The record-id header names used by the main loop. -/
def mainRecordIdKeys : List String :=
  ["Record ID", "record_id", "Airtable Record ID", "source_record_id"]

/-- The merge-target header names. -/
def mergeTargetKeys : List String :=
  ["LookupRecordIDPrimaryReq", "Lookup Record ID Primary Req",
   "Primary Request Record ID", "MergedIntoRecordID"]

/-- One pre-scan step of `build_rid_to_case_number_map`: record the
row's Record ID to Case Number binding when both are non-blank. -/
def prescanStep (headerMap : List (String × String)) (m : List (String × String))
    (row : Row) : List (String × String) :=
  let rid := get_field row headerMap ridKeysPrescan
  let case_num := get_field row headerMap caseKeys
  if rid ≠ "" ∧ case_num ≠ "" then dictInsert m rid case_num else m

/-- `build_rid_to_case_number_map`: pre-scan the whole file into an
in-memory Record ID to Case Number map before any database write. -/
def build_rid_to_case_number_map (fieldnames : List String) (rows : List Row) :
    List (String × String) :=
  let headerMap := normalize_csv_headers fieldnames
  rows.foldl (prescanStep headerMap) []

/-- The merge-target resolution of the main loop: first the in-file
pre-scan map, then the database; the flag records whether it resolved. -/
def resolveMergedCase (ridMap : List (String × String)) (db : DB) (rid : String) :
    Option String × Bool :=
  match dictGet ridMap rid with
  | some c => (some c, true)
  | none =>
    match lookup_case_number_by_source_record_id db rid with
    | some c => (some c, true)
    | none => (none, false)

/-- The request-party block of the main loop: link reporter to request
when both ids are present. -/
def partyStep (db : DB) (req_id person_id : Option Nat) : DB × Bool :=
  match req_id, person_id with
  | some r, some p => upsert_request_party db r p "reporter"
  | _, _ => (db, false)

/-- One note-journal block of the main loop: write the note when the
request exists and the text is non-blank. -/
def noteStep (db : DB) (req_id : Option Nat) (case_number note_kind text : String) :
    DB × Bool × Bool :=
  match req_id with
  | some r =>
    if text ≠ "" then upsert_request_note db r case_number note_kind text
    else (db, false, false)
  | none => (db, false, false)

/-- The merge-target block of the main loop: when a merge-target record
id is present, the lock-it-in rule forces `closed`/`duplicate` and the
target case number is resolved (map first, then DB); otherwise the
coerced status and archive reason pass through.  The result carries
(status, archive_reason, merged_into_case_number, merged_links_set
increment, merged_case_resolved increment, merged_case_unresolved
increment, warnings). -/
def mergeDecision (ridMap : List (String × String)) (db : DB) (case_number : String)
    (status0 archive0 : Option String) (merged_into_source_record_id : Option String) :
    Option String × Option String × Option String × Nat × Nat × Nat × List String :=
  match merged_into_source_record_id with
  | some rid =>
    match resolveMergedCase ridMap db rid with
    | (some c, _) => (some "closed", some "duplicate", some c, 1, 1, 0, [])
    | (none, _) =>
      (some "closed", some "duplicate", none, 1, 0, 1,
       ["WARN: merge target " ++ rid ++ " not found in file or DB (case " ++
         case_number ++ ")"])
  | none => (status0, archive0, none, 0, 0, 0, [])

/-- The fallback status block of the main loop: a non-merge archive
reason supplies a terminal status only when no status was mapped. -/
def statusFallback (archive_reason status1 : Option String) : Option String :=
  if pyTruthy archive_reason ∧ status1 = none then
    if archive_reason = some "duplicate" ∨ archive_reason = some "denied" then
      some "closed"
    else if archive_reason = some "referred_elsewhere" then some "resolved"
    else status1
  else status1

/-- The per-run counters of the trapping ingest. -/
structure Counters where
  addresses_inserted : Nat := 0
  places_inserted : Nat := 0
  people_inserted : Nat := 0
  requests_inserted : Nat := 0
  requests_updated : Nat := 0
  request_parties_inserted : Nat := 0
  notes_inserted : Nat := 0
  notes_updated : Nat := 0
  skipped_blank_rows : Nat := 0
  skipped_missing_case_number : Nat := 0
  skipped_dupe_case_in_file : Nat := 0
  merged_links_set : Nat := 0
  merged_case_resolved : Nat := 0
  merged_case_unresolved : Nat := 0
deriving DecidableEq

/-- The external geocoding interface (spec section 6: an optional
enrichment call returning coordinates or nothing), threaded as a
parameter because it is an out-of-scope HTTP collaborator. -/
structure IngestEnv where
  geocodeEnabled : Bool
  geocode : String → Option ℚ × Option ℚ × Option String

/-- The loop state of the trapping ingest main loop; `warnings` collects
the `WARN:` lines printed while processing. -/
structure IngestState where
  db : DB
  counters : Counters
  seen_case_numbers : List String
  warnings : List String

/-- One iteration of the main loop of the trapping ingest over one CSV
row: skip checks, field extraction, merge-target handling, and the
chained upserts. -/
def processRow (env : IngestEnv) (headerMap ridMap : List (String × String))
    (st : IngestState) (row : Row) : IngestState :=
  if is_blank_row row then
    { st with counters :=
        { st.counters with skipped_blank_rows := st.counters.skipped_blank_rows + 1 } }
  else
    let case_number0 := get_field row headerMap caseKeys
    if case_number0 = "" then
      { st with counters :=
          { st.counters with skipped_missing_case_number :=
              st.counters.skipped_missing_case_number + 1 } }
    else
      let case_number := pyStrip case_number0
      if st.seen_case_numbers.contains case_number then
        { st with counters :=
            { st.counters with skipped_dupe_case_in_file :=
                st.counters.skipped_dupe_case_in_file + 1 } }
      else
        let seen := st.seen_case_numbers ++ [case_number]
        let source_record_id := get_field row headerMap mainRecordIdKeys
        let raw_addr := get_field row headerMap
          ["Address", "Primary Address", "address", "primary_address"]
        let place_name := get_field row headerMap
          ["Request Place Name", "Place Name", "place_name", "Location Name", "Colony Name"]
        let first := get_field row headerMap ["First Name", "first_name"]
        let last := get_field row headerMap ["Last Name", "last_name"]
        let email := get_field row headerMap
          ["Clean Email", "Email", "email", "Client Email (LK)"]
        let phone := get_field row headerMap
          ["Clean Phone", "Client Phone (LK)", "Business Phone", "Phone", "phone"]
        let raw_status := get_field row headerMap ["Case Status", "Status", "status"]
        let status0 := coerce_request_status raw_status
        let archive0 := coerce_archive_reason raw_status
        let merged_target_rid := get_field row headerMap mergeTargetKeys
        let merged_into_source_record_id := optStr merged_target_rid
        let merged := mergeDecision ridMap st.db case_number status0 archive0
          merged_into_source_record_id
        let status1 := merged.1
        let archive_reason := merged.2.1
        let merged_into_case_number := merged.2.2.1
        let linksInc := merged.2.2.2.1
        let resolvedInc := merged.2.2.2.2.1
        let unresolvedInc := merged.2.2.2.2.2.1
        let warn1 := merged.2.2.2.2.2.2
        let status := statusFallback archive_reason status1
        let warn2 :=
          if raw_status ≠ "" ∧ status = none then
            warn1 ++ ["WARN: unmapped status " ++ raw_status ++ " (case " ++
              case_number ++ "); leaving NULL"]
          else warn1
        let raw_priority := get_field row headerMap
          ["Priority (Final Shown)", "Priority", "priority", "Intake Priority"]
        let priority := coerce_priority_smallint raw_priority
        let priority_label := optStr raw_priority
        let warn3 :=
          if raw_priority ≠ "" ∧ priority = none then
            warn2 ++ ["WARN: ignoring non-numeric priority " ++ raw_priority ++
              " (case " ++ case_number ++ ")"]
          else warn2
        let notes := get_field row headerMap
          ["Internal Notes", "Notes", "notes", "internal_notes"]
        let case_info_text := get_field row headerMap ["Case Info"]
        let internal_notes_text := get_field row headerMap ["Internal Notes"]
        let lat0 := parse_float (get_field row headerMap ["Latitude", "lat", "latitude"])
        let lng0 := parse_float (get_field row headerMap ["Longitude", "lng", "longitude"])
        let enriched : Option ℚ × Option ℚ × Option String :=
          if raw_addr ≠ "" ∧ (lat0 = none ∨ lng0 = none) ∧ env.geocodeEnabled = true then
            let g := env.geocode raw_addr
            (coalesce lat0 g.1, coalesce lng0 g.2.1, g.2.2)
          else (lat0, lng0, none)
        let step1 := upsert_address st.db raw_addr enriched.1 enriched.2.1 enriched.2.2
        let db1 := step1.1
        let addr_id := step1.2.1
        let step2 := upsert_place db1 addr_id place_name raw_addr
        let db2 := step2.1
        let place_id := step2.2.1
        let step3 := upsert_person db2 first last email phone
        let db3 := step3.1
        let person_id := step3.2.1
        let step4 := upsert_request db3 case_number source_record_id place_id person_id
          status priority priority_label notes archive_reason merged_into_case_number
          merged_into_source_record_id
        let db4 := step4.1
        let req_id := step4.2.1
        let req_inserted := step4.2.2
        let step5 := partyStep db4 req_id person_id
        let db5 := step5.1
        let step6 := noteStep db5 req_id case_number "case_info" case_info_text
        let db6 := step6.1
        let step7 := noteStep db6 req_id case_number "internal" internal_notes_text
        let db7 := step7.1
        let c := st.counters
        { db := db7,
          counters :=
            { c with
              addresses_inserted := c.addresses_inserted + (if step1.2.2 then 1 else 0),
              places_inserted := c.places_inserted + (if step2.2.2 then 1 else 0),
              people_inserted := c.people_inserted + (if step3.2.2 then 1 else 0),
              requests_inserted := c.requests_inserted + (if req_inserted then 1 else 0),
              requests_updated := c.requests_updated + (if req_inserted then 0 else 1),
              request_parties_inserted :=
                c.request_parties_inserted + (if step5.2 then 1 else 0),
              notes_inserted := c.notes_inserted +
                (if step6.2.1 then 1 else 0) + (if step7.2.1 then 1 else 0),
              notes_updated := c.notes_updated +
                (if step6.2.2 then 1 else 0) + (if step7.2.2 then 1 else 0),
              merged_links_set := c.merged_links_set + linksInc,
              merged_case_resolved := c.merged_case_resolved + resolvedInc,
              merged_case_unresolved := c.merged_case_unresolved + unresolvedInc },
          seen_case_numbers := seen,
          warnings := st.warnings ++ warn3 }

/-- The whole-file main loop: pre-scan map first, then fold the rows. -/
def run_ingest (env : IngestEnv) (fieldnames : List String) (rows : List Row)
    (db0 : DB) : IngestState :=
  let headerMap := normalize_csv_headers fieldnames
  let ridMap := build_rid_to_case_number_map fieldnames rows
  rows.foldl (processRow env headerMap ridMap)
    { db := db0, counters := {}, seen_case_numbers := [], warnings := [] }

/-- The stored request row carrying a given case number, if any. -/
def requestByCase (db : DB) (cn : String) : Option RequestRow :=
  db.requests.find? (fun r => r.case_number = cn)

/-- The request row stored under `cn` after `upsert_request`: the merge
of the existing row if `cn` was present, the fresh insert otherwise. -/
def upsertedRequestRow (db : DB) (cn src : String) (pid qid : Option Nat)
    (st : Option String) (pr : Option Int) (lbl : Option String) (nts : String)
    (arch mcn msri : Option String) : RequestRow :=
  match requestByCase db cn with
  | some r =>
    requestMerge (optStr src) pid qid (pyOrNone st) (pyOrNoneInt pr) (pyOrNone lbl)
      (optStr nts) (pyOrNone arch) (pyOrNone mcn) (pyOrNone msri) r
  | none =>
    { id := db.nextId, case_number := cn, source_record_id := optStr src,
      primary_place_id := pid, primary_contact_person_id := qid,
      status := pyOrNone st, priority := pyOrNoneInt pr,
      priority_label := pyOrNone lbl, notes := optStr nts,
      archive_reason := pyOrNone arch, merged_into_case_number := pyOrNone mcn,
      merged_into_source_record_id := pyOrNone msri,
      archived_at := pyTruthy arch }

/-! Witness inputs and derived-state definitions used by the theorems below. -/

/-- Stored candidate row used to exercise the C5 theorem. -/
def wRowC5 : CandidateRow :=
  { source_system := "clinichq", source_record_id := "S1",
    candidate_person_id := "P1", confidence := 9/10,
    evidence := { matched_on := ["email"], phone_match := false,
                  email_match := true, name_similarity := 0, tier := 1,
                  source_name := "Ann", source_email := some "a@x.com",
                  source_phone := none },
    status := "open" }

/-- Re-generated lower-confidence candidate used to exercise C5. -/
def wCandC5 : MatchCandidate :=
  { source_system := "clinichq", source_record_id := "S1",
    candidate_person_id := "P1", confidence := 7/10,
    evidence := { matched_on := ["name_fuzzy"], phone_match := false,
                  email_match := false, name_similarity := 3/4, tier := 2,
                  source_name := "Ann", source_email := none,
                  source_phone := none } }

/-- Character-level image of `pyJoin "|"`. -/
def joinChars : List (List Char) → List Char
  | [] => []
  | [x] => x
  | x :: xs => x ++ '|' :: joinChars xs

/-- No tracked field contains the `|` join separator. -/
def pipeFreeFields (l : List String) : Prop :=
  ∀ s ∈ l, '|' ∉ s.data

instance (l : List String) : Decidable (pipeFreeFields l) :=
  List.decidableBAll _ l

/-- ClinicHQ normalized row whose first name contains the separator. -/
def pipeRowA : ApptNormRow :=
  { appt_date := some "2025-01-01", appt_number := some 5,
    client_first_name := "a|b", client_last_name := "c", client_address := "addr",
    animal_name := "cat", client_email := "e@x", client_cell_phone := none,
    client_phone := none }

/-- A different row (different first and last name) with the same joined
digest input as `pipeRowA`. -/
def pipeRowB : ApptNormRow :=
  { appt_date := some "2025-01-01", appt_number := some 5,
    client_first_name := "a", client_last_name := "b|c", client_address := "addr",
    animal_name := "cat", client_email := "e@x", client_cell_phone := none,
    client_phone := none }

/-- Row with superfluous whitespace that normalizes to the same tracked
fields as `wHashRowB`. -/
def wHashRowA : ApptNormRow :=
  { appt_date := some "2025-01-01", appt_number := some 5,
    client_first_name := "Ann  X", client_last_name := "Lee", client_address := "1 Main",
    animal_name := "cat", client_email := "e@x", client_cell_phone := none,
    client_phone := none }

/-- Re-import of the same record with the whitespace already collapsed. -/
def wHashRowB : ApptNormRow :=
  { appt_date := some "2025-01-01", appt_number := some 5,
    client_first_name := "Ann X", client_last_name := "Lee", client_address := "1 Main",
    animal_name := "cat", client_email := "e@x", client_cell_phone := none,
    client_phone := none }

/-- A pipe-free row differing from `wHashRowB` in the animal name. -/
def wHashRowC : ApptNormRow :=
  { appt_date := some "2025-01-01", appt_number := some 5,
    client_first_name := "Ann X", client_last_name := "Lee", client_address := "1 Main",
    animal_name := "dog", client_email := "e@x", client_cell_phone := none,
    client_phone := none }

/-- Unlinked source record with an email and no usable name or phone,
used to exercise the C7 theorem. -/
def wSrcC7 : SourceRecord :=
  { source_system := "jotform", source_record_id := "J1", display_name := "",
    email := some "a@x.com", phone := some "555", phone_normalized := none,
    address_display := none }

/-- Canonical person sharing the email, used to exercise C7. -/
def wPerC7 : CanonicalPerson :=
  { person_id := "P9", display_name := "", email := some "a@x.com",
    phone := none, phone_normalized := none }

/-- The candidate `calculate_match` produces for the C7 witness pair. -/
def wCandC7 : MatchCandidate :=
  { source_system := "jotform", source_record_id := "J1",
    candidate_person_id := "P9", confidence := 49 / 50,
    evidence := { matched_on := ["email"], phone_match := false,
                  email_match := true, name_similarity := 0, tier := 0,
                  source_name := "", source_email := some "a@x.com",
                  source_phone := some "555" } }

/-- Source record for the C6 failing input: name similar to the
canonical person, same address in the source data, but a different area
code and no tier-0 signal. -/
def srcC6 : SourceRecord :=
  { source_system := "clinichq", source_record_id := "S1", display_name := "abcd",
    email := none, phone := some "415-555-0100",
    phone_normalized := some "4155550100", address_display := some "123 Main St" }

/-- Canonical person for the C6 failing input.  Note the source type
carries no address column at all, so the documented same-address tier-1
signal cannot even be evaluated against it. -/
def perC6 : CanonicalPerson :=
  { person_id := "P1", display_name := "abce", email := none,
    phone := none, phone_normalized := some "2125550100" }

/-- A geocoding-disabled ingest environment for concrete runs. -/
def wEnv : IngestEnv :=
  { geocodeEnabled := false, geocode := fun _ => (none, none, none) }

/-- The empty store. -/
def wEmptyDB : DB :=
  { addresses := [], places := [], people := [], requests := [],
    request_parties := [], request_notes := [], nextId := 0 }

/-- The initial loop state over the empty store. -/
def wSt0 : IngestState :=
  { db := wEmptyDB, counters := {}, seen_case_numbers := [], warnings := [] }

/-- A row whose raw Case Status is In Progress but which carries a
merge-target record id. -/
def wRowC1 : Row :=
  [("Case Number", "C-1"), ("Case Status", "In Progress"),
   ("LookupRecordIDPrimaryReq", "R9"), ("First Name", "Ann")]

/-- A row whose merge target occurs nowhere: used to exercise C9. -/
def wRowC9 : Row :=
  [("Case Number", "C-2"), ("Case Status", "In Progress"),
   ("LookupRecordIDPrimaryReq", "RZZ"), ("First Name", "Bob")]

/-- The loop state of `run_ingest` after its first `k` rows. -/
def ingestStateAfter (env : IngestEnv) (fieldnames : List String) (rows : List Row)
    (db0 : DB) (k : Nat) : IngestState :=
  (rows.take k).foldl
    (processRow env (normalize_csv_headers fieldnames)
      (build_rid_to_case_number_map fieldnames rows))
    { db := db0, counters := {}, seen_case_numbers := [], warnings := [] }

/-- First occurrence of case number C-7 in the C10 witness file. -/
def wRowC10a : Row :=
  [("Case Number", "C-7"), ("Case Status", "New"), ("First Name", "Ann")]

/-- Second occurrence of C-7 with different field values, which must be
skipped. -/
def wRowC10b : Row :=
  [("Case Number", "C-7"), ("Case Status", "Hold"), ("First Name", "Zoe")]

/-- Earlier row of the C2 witness file, declaring R9 as its merge
target before R9 appears. -/
def wRowC2a : Row :=
  [("Case Number", "C-9"), ("Record ID", "R1"), ("LookupRecordIDPrimaryReq", "R9")]

/-- Later row of the C2 witness file: record id R9, case CASE-042. -/
def wRowC2b : Row :=
  [("Case Number", "CASE-042"), ("Record ID", "R9"), ("LookupRecordIDPrimaryReq", "")]

/-- Stored person for the C3 witness (every field populated). -/
def wPerC3 : PersonRow :=
  { id := 1, person_key := "phone:5551112222", first_name := some "Ann",
    last_name := some "Lee", email := some "ann@x.com",
    phone := some "5551112222", phone_normalized := some "5551112222" }

/-- Stored request for the C3 witness (every field populated). -/
def wReqC3 : RequestRow :=
  { id := 2, case_number := "C-1", source_record_id := some "R1",
    primary_place_id := some 5, primary_contact_person_id := some 6,
    status := some "active", priority := some 2, priority_label := some "High",
    notes := some "old notes", archive_reason := some "denied",
    merged_into_case_number := some "CASE-9",
    merged_into_source_record_id := some "R9", archived_at := true }

/-- Stored address for the C3 witness (every field populated). -/
def wAddrC3 : AddressRow :=
  { id := 3, address_key := "addr:1 main st", raw_address := "1 Main St",
    formatted_address := some "1 Main Street, City", latitude := some 37,
    longitude := some (-122), geom := some (-122, 37) }

/-- Stored place for the C3 witness. -/
def wPlC3 : PlaceRow :=
  { id := 4, place_key := "place:addr:1 main st", display_name := "Old Name",
    address_id := some 9 }

/-- Store holding the C3 witness person. -/
def wDbP : DB :=
  { wEmptyDB with people := [wPerC3] }

/-- Store holding the C3 witness request. -/
def wDbR : DB :=
  { wEmptyDB with requests := [wReqC3] }

/-- Store holding the C3 witness address. -/
def wDbA : DB :=
  { wEmptyDB with addresses := [wAddrC3] }

/-- Store holding the C3 witness place. -/
def wDbL : DB :=
  { wEmptyDB with places := [wPlC3] }

/-! Shared helper lemmas. -/

/-- Looking up by a key after a keyed in-place update finds the updated
row, provided the update preserves the key. -/
theorem find?_updateFirst {α : Type} (p : α → Bool) (f : α → α)
    (hf : ∀ x, p x = true → p (f x) = true) :
    ∀ l : List α, (updateFirst p f l).find? p = (l.find? p).map f := by
  intro l
  induction l with
  | nil => rfl
  | cons x xs ih =>
    by_cases hx : p x = true
    · simp [updateFirst, hx, List.find?_cons_of_pos, hf x hx]
    · have hx' : p x = false := by simpa using hx
      simp [updateFirst, hx', List.find?_cons_of_neg, ih]

/-- Finding in an appended list searches the first list first. -/
theorem find?_append {α : Type} (p : α → Bool) :
    ∀ l₁ l₂ : List α, (l₁ ++ l₂).find? p =
      (match l₁.find? p with | some x => some x | none => l₂.find? p) := by
  intro l₁ l₂
  induction l₁ with
  | nil => rfl
  | cons x xs ih =>
    by_cases hx : p x = true
    · simp [List.find?_cons_of_pos, hx]
    · have hx' : p x = false := by simpa using hx
      simp [List.find?_cons_of_neg, hx', ih]

/-- The address upsert never touches the requests table. -/
theorem upsert_address_requests (db : DB) (raw : String) (lat lng : Option ℚ)
    (fmt : Option String) : (upsert_address db raw lat lng fmt).1.requests = db.requests := by
  unfold upsert_address
  split
  · rfl
  · dsimp only
    split <;> rfl

/-- The place upsert never touches the requests table. -/
theorem upsert_place_requests (db : DB) (aid : Option Nat) (pn raw : String) :
    (upsert_place db aid pn raw).1.requests = db.requests := by
  unfold upsert_place
  split
  · rfl
  · dsimp only
    split <;> rfl

/-- The person upsert never touches the requests table. -/
theorem upsert_person_requests (db : DB) (f l e p : String) :
    (upsert_person db f l e p).1.requests = db.requests := by
  unfold upsert_person
  dsimp only
  split
  · rfl
  · split <;> rfl

/-- The party link step never touches the requests table. -/
theorem partyStep_requests (db : DB) (o q : Option Nat) :
    (partyStep db o q).1.requests = db.requests := by
  unfold partyStep
  split
  · unfold upsert_request_party
    split <;> rfl
  · rfl

/-- The note step never touches the requests table. -/
theorem noteStep_requests (db : DB) (o : Option Nat) (cn kind text : String) :
    (noteStep db o cn kind text).1.requests = db.requests := by
  unfold noteStep
  cases o <;> try rfl
  dsimp only
  split
  · unfold upsert_request_note
    split
    · rfl
    · dsimp only
      split
      · rfl
      · split <;> rfl
  · rfl

/-- `upsert_request` stores exactly the merged (or freshly inserted) row
under the given case number. -/
theorem upsert_request_byCase (db : DB) (cn src : String) (pid qid : Option Nat)
    (st : Option String) (pr : Option Int) (lbl : Option String) (nts : String)
    (arch mcn msri : Option String) :
    requestByCase (upsert_request db cn src pid qid st pr lbl nts arch mcn msri).1 cn =
      some (upsertedRequestRow db cn src pid qid st pr lbl nts arch mcn msri) := by
  have hkey : ∀ x : RequestRow, (decide (x.case_number = cn)) = true →
      (decide ((requestMerge (optStr src) pid qid (pyOrNone st) (pyOrNoneInt pr)
        (pyOrNone lbl) (optStr nts) (pyOrNone arch) (pyOrNone mcn)
        (pyOrNone msri) x).case_number = cn)) = true := by
    intro x hx
    simpa [requestMerge] using hx
  unfold upsert_request upsertedRequestRow requestByCase
  cases hfind : db.requests.find? (fun r => r.case_number = cn) with
  | some r =>
    dsimp only
    rw [find?_updateFirst _ _ hkey, hfind]
    rfl
  | none =>
    dsimp only
    rw [find?_append, hfind]
    simp

/-- Claim C5: re-generating a candidate for an already-stored
(source_system, source_record_id, candidate_person_id) triple stores
confidence `max(old, new)` — a lower new confidence leaves the stored
confidence unchanged, a higher one overwrites it — and replaces the
evidence document with the latest computation. -/
theorem candidate_monotonic_confidence
    (store : List CandidateRow) (c : MatchCandidate) (r : CandidateRow)
    (h : store.find? (candidateKeyMatches c) = some r) :
    ∃ r', (upsert_candidate store c).find? (candidateKeyMatches c) = some r' ∧
      r'.confidence = max r.confidence c.confidence ∧
      r'.evidence = c.evidence ∧
      (c.confidence ≤ r.confidence → r'.confidence = r.confidence) ∧
      (r.confidence < c.confidence → r'.confidence = c.confidence) := by
  have hkey : ∀ x : CandidateRow, candidateKeyMatches c x = true →
      candidateKeyMatches c
        ({ x with confidence := max x.confidence c.confidence,
                  evidence := c.evidence }) = true := by
    intro x hx
    simpa [candidateKeyMatches] using hx
  refine ⟨{ r with confidence := max r.confidence c.confidence, evidence := c.evidence },
    ?_, rfl, rfl, ?_, ?_⟩
  · unfold upsert_candidate
    rw [h]
    rw [find?_updateFirst _ _ hkey, h]
    rfl
  · intro hle
    simpa using max_eq_left hle
  · intro hlt
    simpa using max_eq_right (le_of_lt hlt)

/-- Claim C5 witness: a stored candidate re-generated at lower
confidence keeps its stored confidence, and the evidence is replaced. -/
theorem candidate_monotonic_confidence_witness :
    ∃ r', (upsert_candidate [wRowC5] wCandC5).find? (candidateKeyMatches wCandC5) =
        some r' ∧
      r'.confidence = max wRowC5.confidence wCandC5.confidence ∧
      r'.evidence = wCandC5.evidence ∧
      (wCandC5.confidence ≤ wRowC5.confidence → r'.confidence = wRowC5.confidence) ∧
      (wRowC5.confidence < wCandC5.confidence → r'.confidence = wCandC5.confidence) := by
  exact candidate_monotonic_confidence [wRowC5] wCandC5 wRowC5 rfl

/-- Claim C4: the staleness pass of a run with coverage window
[coverage_start, coverage_end] leaves every stored appointment whose
business date lies outside the window entirely unchanged — in
particular `is_current` and `stale_at` — whatever its run id. -/
theorem windowed_staleness_containment
    (run_id : String) (coverage_start coverage_end now : Int)
    (tbl : List ApptRecord) (i : Nat) (r : ApptRecord)
    (hr : tbl.get? i = some r)
    (hout : r.appt_date < coverage_start ∨ coverage_end < r.appt_date) :
    (mark_stale_in_window run_id coverage_start coverage_end now tbl).get? i = some r := by
  unfold mark_stale_in_window
  rw [List.get?_map, hr]
  have hcond : ¬(r.is_current = true ∧ coverage_start ≤ r.appt_date ∧
      r.appt_date ≤ coverage_end ∧
      (r.last_seen_run_id = none ∨ r.last_seen_run_id ≠ some run_id)) := by
    rintro ⟨-, h1, h2, -⟩
    rcases hout with h | h <;> omega
  simp [hcond]

/-- Claim C4 witness: a current appointment dated before the window,
absent from the run, is untouched by the staleness pass. -/
theorem windowed_staleness_containment_witness :
    (mark_stale_in_window "run-2" 100 200 500
        [{ source_pk := "7", source_file := "f.xlsx", source_row_hash := "h",
           appt_date := 50, last_seen_run_id := some "run-1", is_current := true,
           stale_at := none }]).get? 0 =
      some { source_pk := "7", source_file := "f.xlsx", source_row_hash := "h",
             appt_date := 50, last_seen_run_id := some "run-1", is_current := true,
             stale_at := none } := by
  exact windowed_staleness_containment _ _ _ _ _ 0 _ rfl (by decide)

/-! Claim C8: change detection through the content hash. -/

/-- `String.data` is injective. -/
theorem stringDataInj : ∀ {a b : String}, a.data = b.data → a = b := by
  intro a b h
  cases a
  cases b
  exact congrArg String.mk h

/-- The character data of a pipe join. -/
theorem pyJoin_data : ∀ l : List String, (pyJoin "|" l).data = joinChars (l.map String.data) := by
  intro l
  induction l with
  | nil => rfl
  | cons x xs ih =>
    cases xs with
    | nil => rfl
    | cons y ys =>
      show (x ++ "|" ++ pyJoin "|" (y :: ys)).data = x.data ++ '|' :: joinChars ((y :: ys).map String.data)
      rw [← ih, String.data_append, String.data_append, List.append_assoc]
      rfl

/-- A pipe-free prefix before the first `|` is determined by the whole
list. -/
theorem pipefree_append_inj : ∀ (a b u v : List Char), '|' ∉ a → '|' ∉ b →
    a ++ '|' :: u = b ++ '|' :: v → a = b ∧ u = v := by
  intro a
  induction a with
  | nil =>
    intro b u v _ hb h
    cases b with
    | nil => simpa using h
    | cons c bs =>
      exfalso
      have : c = '|' := by simpa using congrArg (fun l => l.headD ' ') h.symm
      exact hb (this ▸ List.mem_cons_self c bs)
  | cons c as ih =>
    intro b u v ha hb h
    cases b with
    | nil =>
      exfalso
      have : c = '|' := by simpa using congrArg (fun l => l.headD ' ') h
      exact ha (this ▸ List.mem_cons_self c as)
    | cons d bs =>
      have hcd : c = d := by simpa using congrArg (fun l => l.headD ' ') h
      have htl : as ++ '|' :: u = bs ++ '|' :: v := by
        simpa using congrArg List.tail h
      have ha' : '|' ∉ as := fun hmem => ha (List.mem_cons_of_mem c hmem)
      have hb' : '|' ∉ bs := fun hmem => hb (List.mem_cons_of_mem d hmem)
      obtain ⟨h1, h2⟩ := ih bs u v ha' hb' htl
      exact ⟨by rw [hcd, h1], h2⟩

/-- `joinChars` is injective on equal-length lists of pipe-free parts. -/
theorem joinChars_pipefree_inj : ∀ l1 l2 : List (List Char), l1.length = l2.length →
    (∀ x ∈ l1, '|' ∉ x) → (∀ x ∈ l2, '|' ∉ x) → joinChars l1 = joinChars l2 → l1 = l2 := by
  intro l1
  induction l1 with
  | nil =>
    intro l2 hlen _ _ _
    cases l2 with
    | nil => rfl
    | cons y ys => simp at hlen
  | cons x xs ih =>
    intro l2 hlen h1 h2 h
    cases l2 with
    | nil => simp at hlen
    | cons y ys =>
      cases xs with
      | nil =>
        cases ys with
        | nil =>
          have : x = y := by simpa [joinChars] using h
          rw [this]
        | cons y2 ys2 => simp at hlen
      | cons x2 xs2 =>
        cases ys with
        | nil => simp at hlen
        | cons y2 ys2 =>
          have hx : '|' ∉ x := h1 x (List.mem_cons_self x _)
          have hy : '|' ∉ y := h2 y (List.mem_cons_self y _)
          have hj : x ++ '|' :: joinChars (x2 :: xs2) = y ++ '|' :: joinChars (y2 :: ys2) := by
            simpa [joinChars] using h
          obtain ⟨hxy, htail⟩ := pipefree_append_inj x y _ _ hx hy hj
          have h1' : ∀ z ∈ x2 :: xs2, '|' ∉ z := fun z hz => h1 z (List.mem_cons_of_mem x hz)
          have h2' : ∀ z ∈ y2 :: ys2, '|' ∉ z := fun z hz => h2 z (List.mem_cons_of_mem y hz)
          have hlen' : (x2 :: xs2).length = (y2 :: ys2).length := by simpa using hlen
          have := ih (y2 :: ys2) hlen' h1' h2' htail
          rw [hxy, this]

/-- `pyJoin "|"` is injective on equal-length lists of pipe-free fields. -/
theorem pyJoin_pipefree_inj (l1 l2 : List String) (hlen : l1.length = l2.length)
    (h1 : ∀ s ∈ l1, '|' ∉ s.data) (h2 : ∀ s ∈ l2, '|' ∉ s.data)
    (h : pyJoin "|" l1 = pyJoin "|" l2) : l1 = l2 := by
  have hd : joinChars (l1.map String.data) = joinChars (l2.map String.data) := by
    rw [← pyJoin_data, ← pyJoin_data, h]
  have hmaps : l1.map String.data = l2.map String.data := by
    refine joinChars_pipefree_inj _ _ (by simpa using hlen) ?_ ?_ hd
    · intro x hx
      obtain ⟨s, hs, rfl⟩ := List.mem_map.mp hx
      exact h1 s hs
    · intro x hx
      obtain ⟨s, hs, rfl⟩ := List.mem_map.mp hx
      exact h2 s hs
  exact List.map_injective_iff.mpr (fun a b hab => stringDataInj hab) hmaps

/-- Claim C8 counterexample: two rows that differ in tracked fields
(first and last name) but produce identical content hashes, because the
`|`-join of the tracked fields is ambiguous when a field contains `|`. -/
theorem content_hash_pipe_collision :
    contentFieldsCHQ pipeRowA ≠ contentFieldsCHQ pipeRowB ∧
    compute_row_hash_chq pipeRowA = compute_row_hash_chq pipeRowB := by
  constructor
  · decide
  · have h : contentStringCHQ pipeRowA = contentStringCHQ pipeRowB := by decide
    simpa [compute_row_hash_chq] using congrArg hashDigest32 h

/-- Claim C8 (amended): the content hash is deterministic — equal
tracked fields always give an identical hash — and, provided no tracked
field contains the `|` separator, rows differing in a tracked field
produce different digest inputs (so their hashes differ up to SHA-256
truncation collisions); with `|` inside a field two differing rows can
share the digest input and hence the hash.  Both `compute_row_hash`
implementations are covered. -/
theorem content_hash_change_detection :
    (∀ r1 r2 : ApptNormRow, contentFieldsCHQ r1 = contentFieldsCHQ r2 →
        compute_row_hash_chq r1 = compute_row_hash_chq r2) ∧
    (∀ row1 row2 : Row, contentFieldsAT row1 = contentFieldsAT row2 →
        compute_row_hash_at row1 = compute_row_hash_at row2) ∧
    (∀ r1 r2 : ApptNormRow, pipeFreeFields (contentFieldsCHQ r1) →
        pipeFreeFields (contentFieldsCHQ r2) → contentFieldsCHQ r1 ≠ contentFieldsCHQ r2 →
        contentStringCHQ r1 ≠ contentStringCHQ r2) ∧
    (∀ row1 row2 : Row, pipeFreeFields (contentFieldsAT row1) →
        pipeFreeFields (contentFieldsAT row2) → contentFieldsAT row1 ≠ contentFieldsAT row2 →
        contentStringAT row1 ≠ contentStringAT row2) := by
  refine ⟨?_, ?_, ?_, ?_⟩
  · intro r1 r2 h
    show hashDigest32 (pyJoin "|" (contentFieldsCHQ r1)) =
      hashDigest32 (pyJoin "|" (contentFieldsCHQ r2))
    rw [h]
  · intro row1 row2 h
    show hashDigest32 (pyJoin "|" (contentFieldsAT row1)) =
      hashDigest32 (pyJoin "|" (contentFieldsAT row2))
    rw [h]
  · intro r1 r2 hp1 hp2 hne hs
    exact hne (pyJoin_pipefree_inj _ _ rfl hp1 hp2 hs)
  · intro row1 row2 hp1 hp2 hne hs
    exact hne (pyJoin_pipefree_inj _ _ rfl hp1 hp2 hs)

/-- Claim C8 witness: an unchanged record re-imported hashes
identically, and a pipe-free change to a tracked field changes the
digest input. -/
theorem content_hash_change_detection_witness :
    compute_row_hash_chq wHashRowA = compute_row_hash_chq wHashRowB ∧
    contentStringCHQ wHashRowB ≠ contentStringCHQ wHashRowC := by
  exact ⟨content_hash_change_detection.1 wHashRowA wHashRowB (by decide),
    content_hash_change_detection.2.2.1 wHashRowB wHashRowC (by decide) (by decide)
      (by decide)⟩

/-! Claims C6 and C7: the tiered match computation. -/

/-- Rounding an integer-valued rational is the identity. -/
theorem roundHalfEven_intCast (n : ℤ) : roundHalfEven (n : ℚ) = n := by
  unfold roundHalfEven
  rw [Int.floor_intCast]
  norm_num

/-- `round(q, 3)` is exact when `q` has at most three decimals. -/
theorem pyRound3_mul_intCast (q : ℚ) (n : ℤ) (h : q * 1000 = n) :
    pyRound3 q = (n : ℚ) / 1000 := by
  unfold pyRound3
  rw [h, roundHalfEven_intCast]

/-- Banker's rounding never goes below an integer lower bound. -/
theorem le_roundHalfEven (n : ℤ) (q : ℚ) (h : (n : ℚ) ≤ q) :
    n ≤ roundHalfEven q := by
  have h0 : n ≤ ⌊q⌋ := Int.le_floor.mpr h
  unfold roundHalfEven
  split_ifs <;> omega

/-- Banker's rounding never exceeds an integer upper bound. -/
theorem roundHalfEven_le (n : ℤ) (q : ℚ) (h : q ≤ (n : ℚ)) :
    roundHalfEven q ≤ n := by
  have hfl : ⌊q⌋ ≤ n := by
    have := Int.floor_le_floor h
    rwa [Int.floor_intCast] at this
  have hstrict : ¬(q - (⌊q⌋ : ℚ) < 1 / 2) → ⌊q⌋ < n := by
    intro hr
    rcases lt_or_eq_of_le hfl with hlt | heq
    · exact hlt
    · exfalso
      apply hr
      have hq : q = (n : ℚ) := le_antisymm h (by rw [← heq]; exact Int.floor_le q)
      rw [heq, hq]
      norm_num
  unfold roundHalfEven
  split_ifs with h1 h2 h3
  · exact hfl
  · exact hstrict h1
  · exact hfl
  · exact hstrict h1

/-- Bounds for `round(q, 3)` on the candidate-confidence interval. -/
theorem pyRound3_bounds (q : ℚ) (h1 : 2 / 5 ≤ q) (h2 : q ≤ 1) :
    0 ≤ pyRound3 q ∧ pyRound3 q ≤ 1 := by
  have ha : (400 : ℤ) ≤ roundHalfEven (q * 1000) := by
    apply le_roundHalfEven
    push_cast
    linarith
  have hb : roundHalfEven (q * 1000) ≤ (1000 : ℤ) := by
    apply roundHalfEven_le
    push_cast
    linarith
  unfold pyRound3
  constructor
  · apply div_nonneg _ (by norm_num)
    exact_mod_cast le_trans (by norm_num) ha
  · rw [div_le_one (by norm_num)]
    exact_mod_cast hb

/-- The computed name similarity is nonnegative. -/
theorem name_similarity_nonneg (a b : String) : 0 ≤ name_similarity a b := by
  simp only [name_similarity]
  split_ifs
  · exact le_refl 0
  · exact le_refl 0
  · exact le_max_left 0 _

/-- The computed name similarity is at most one. -/
theorem name_similarity_le_one (a b : String) : name_similarity a b ≤ 1 := by
  simp only [name_similarity]
  split_ifs
  · norm_num
  · norm_num
  · refine max_le (by norm_num) ?_
    have : (0 : ℚ) ≤ (levenshtein_distance (normalize_name a) (normalize_name b) : ℚ) /
        ((max (normalize_name a).length (normalize_name b).length : ℕ) : ℚ) :=
      div_nonneg (by positivity) (by positivity)
    linarith

/-- The raw confidence of `calculate_match` never exceeds one. -/
theorem rawConfidence_le_one (source : SourceRecord) (person : CanonicalPerson) :
    rawConfidence source person ≤ 1 := by
  have hns1 := name_similarity_le_one source.display_name person.display_name
  have hns0 := name_similarity_nonneg source.display_name person.display_name
  unfold rawConfidence calcSignals
  dsimp only
  split_ifs
  all_goals try simp only [max_le_iff]
  all_goals try norm_num
  all_goals linarith

/-- Claim C7: every candidate `calculate_match` produces has confidence
in [0, 1]; the tier recorded in its evidence is the pure threshold
function of the computed confidence (0.95 / 0.80 / 0.50 cut points,
e.g. 0.96 is tier 0, 0.82 tier 1, 0.6 tier 2); and a computed
confidence below the 0.40 acceptance floor yields no candidate. -/
theorem confidence_bounds_and_tier
    (source : SourceRecord) (person : CanonicalPerson) (c : MatchCandidate)
    (h : calculate_match source person = some c) :
    (0 ≤ c.confidence ∧ c.confidence ≤ 1) ∧
    c.evidence.tier = tierOf (rawConfidence source person) ∧
    tierOf (96 / 100) = 0 ∧ tierOf (82 / 100) = 1 ∧ tierOf (6 / 10) = 2 ∧
    (∀ s2 p2, rawConfidence s2 p2 < 2 / 5 → calculate_match s2 p2 = none) := by
  unfold calculate_match at h
  dsimp only at h
  split at h
  · exact absurd h (by simp)
  · next hcond =>
    push_neg at hcond
    obtain ⟨hne, hge⟩ := hcond
    have hle := rawConfidence_le_one source person
    obtain ⟨hc⟩ := h
    refine ⟨?_, ?_, ?_, ?_, ?_, ?_⟩
    · exact pyRound3_bounds _ hge hle
    · rfl
    · norm_num [tierOf]
    · norm_num [tierOf]
    · norm_num [tierOf]
    · intro s2 p2 hlt
      unfold rawConfidence at hlt
      unfold calculate_match
      dsimp only
      rw [if_pos (Or.inr hlt)]

/-- Evaluation of `calculate_match` on the C7 witness pair: an exact
email match yields the 0.98 tier-0 candidate. -/
theorem calc_match_email_eval : calculate_match wSrcC7 wPerC7 = some wCandC7 := by
  have hname : name_similarity "" "" = 0 := by
    have hn0 : normalize_name "" = "" := rfl
    unfold name_similarity
    dsimp only
    simp [hn0]
  have hsig : calcSignals wSrcC7 wPerC7 = (["email"], 49 / 50, 0) := by
    unfold calcSignals
    simp +decide [wSrcC7, wPerC7, hname]
    norm_num
  unfold calculate_match
  rw [hsig]
  dsimp only
  rw [if_neg (by push_neg; exact ⟨by simp, by norm_num⟩)]
  have hr1 : pyRound3 (49 / 50) = 49 / 50 := by
    rw [pyRound3_mul_intCast (49 / 50) 980 (by norm_num)]
    norm_num
  have hr0 : pyRound3 0 = 0 := by
    rw [pyRound3_mul_intCast 0 0 (by norm_num)]
    norm_num
  have ht : tierOf (49 / 50) = 0 := by norm_num [tierOf]
  simp +decide [wCandC7, wSrcC7, wPerC7, hr1, hr0, ht]

/-- Claim C7 witness: the theorem instantiated at the concrete email
match, all hypotheses discharged by evaluation. -/
theorem confidence_bounds_and_tier_witness :
    (0 ≤ wCandC7.confidence ∧ wCandC7.confidence ≤ 1) ∧
    wCandC7.evidence.tier = tierOf (rawConfidence wSrcC7 wPerC7) ∧
    tierOf (96 / 100) = 0 ∧ tierOf (82 / 100) = 1 ∧ tierOf (6 / 10) = 2 ∧
    (∀ s2 p2, rawConfidence s2 p2 < 2 / 5 → calculate_match s2 p2 = none) :=
  confidence_bounds_and_tier wSrcC7 wPerC7 wCandC7 calc_match_email_eval

/-- Claim C6 evaluation at the failing input: name similarity 0.75 is
above the 0.70 gate and the records share an address, yet the code
returns the tier-2 name-only confidence 0.5 + 0.75*0.3 = 0.725, not the
tier-1 value 0.85 + 0.75*0.1 = 0.925 the spec requires, because
`calculate_match` never consults any address. -/
theorem tier1_address_branch_missing :
    name_similarity srcC6.display_name perC6.display_name = 3 / 4 ∧
    (calculate_match srcC6 perC6).map MatchCandidate.confidence = some (29 / 40) ∧
    (calculate_match srcC6 perC6).map (fun c => c.evidence.tier) = some 2 ∧
    (29 : ℚ) / 40 ≠ 17 / 20 + (3 / 4) * (1 / 10) := by
  have hd : levenshtein_distance "abcd" "abce" = 1 := by decide
  have hn1 : normalize_name "abcd" = "abcd" := by decide
  have hn2 : normalize_name "abce" = "abce" := by decide
  have hsim : name_similarity "abcd" "abce" = 3 / 4 := by
    unfold name_similarity
    rw [hn1, hn2]
    dsimp only
    rw [if_neg (by decide), if_neg (by decide), hd,
      (by decide : ("abcd".length ⊔ "abce".length) = 4)]
    rw [max_eq_right (by norm_num)]
    norm_num
  have hsig : calcSignals srcC6 perC6 = (["name_fuzzy"], 29 / 40, 3 / 4) := by
    unfold calcSignals
    simp +decide [srcC6, perC6, hsim]
    norm_num
  refine ⟨hsim, ?_, ?_, by norm_num⟩
  · unfold calculate_match
    rw [hsig]
    dsimp only
    rw [if_neg (by push_neg; exact ⟨by simp, by norm_num⟩)]
    have hr : pyRound3 (29 / 40) = 29 / 40 := by
      rw [pyRound3_mul_intCast (29 / 40) 725 (by norm_num)]
      norm_num
    simp [hr]
  · unfold calculate_match
    rw [hsig]
    dsimp only
    rw [if_neg (by push_neg; exact ⟨by simp, by norm_num⟩)]
    have ht : tierOf (29 / 40) = 2 := by norm_num [tierOf]
    simp [ht]

/-! Claims C1 and C9: the lock-it-in rule and unresolved merge targets. -/

/-- Equal requests tables give equal case lookups. -/
theorem requestByCase_congr {db1 db2 : DB} (h : db1.requests = db2.requests)
    (cn : String) : requestByCase db1 cn = requestByCase db2 cn := by
  unfold requestByCase
  rw [h]

/-- Whatever the resolution outcome, a present merge target forces
status `closed` and archive reason `duplicate`. -/
theorem mergeDecision_forces (rm : List (String × String)) (db : DB)
    (cn : String) (s0 a0 : Option String) (rid : String) :
    (mergeDecision rm db cn s0 a0 (some rid)).1 = some "closed" ∧
    (mergeDecision rm db cn s0 a0 (some rid)).2.1 = some "duplicate" := by
  unfold mergeDecision
  dsimp only
  rcases h : resolveMergedCase rm db rid with ⟨mc, fl⟩
  cases mc <;> simp

/-- The fallback status block never overrides a present status. -/
theorem statusFallback_some (a : Option String) (s : String) :
    statusFallback a (some s) = some s := by
  unfold statusFallback
  simp

/-- The row stored by `upsert_request` with `closed`/`duplicate` inputs
has status `closed` and archive reason `duplicate`, on both the insert
and the update path. -/
theorem upsertedRequestRow_forced (db : DB) (cn src : String) (pid qid : Option Nat)
    (pr : Option Int) (lbl : Option String) (nts : String) (mcn msri : Option String) :
    (upsertedRequestRow db cn src pid qid (some "closed") pr lbl nts
        (some "duplicate") mcn msri).status = some "closed" ∧
    (upsertedRequestRow db cn src pid qid (some "closed") pr lbl nts
        (some "duplicate") mcn msri).archive_reason = some "duplicate" := by
  unfold upsertedRequestRow
  cases requestByCase db cn <;> simp [requestMerge, pyOrNone, coalesce]

/-- Claim C1: for every non-blank, case-numbered, first-occurrence row
that carries a merge-target record id, whether or not the target
resolves through the pre-scan map or the database, the request row the
upsert writes has status `closed` and archive_reason `duplicate`,
regardless of the row's raw Case Status text. -/
theorem merge_target_forces_closed_duplicate
    (env : IngestEnv) (hm rm : List (String × String)) (st : IngestState) (row : Row)
    (hblank : is_blank_row row = false)
    (hcase : get_field row hm caseKeys ≠ "")
    (hseen : st.seen_case_numbers.contains (pyStrip (get_field row hm caseKeys)) = false)
    (hmerge : get_field row hm mergeTargetKeys ≠ "") :
    ∃ r', requestByCase (processRow env hm rm st row).db
        (pyStrip (get_field row hm caseKeys)) = some r' ∧
      r'.status = some "closed" ∧ r'.archive_reason = some "duplicate" := by
  have hopt : optStr (get_field row hm mergeTargetKeys) =
      some (get_field row hm mergeTargetKeys) := by
    simp [optStr, hmerge]
  unfold processRow
  rw [if_neg (by simp [hblank])]
  dsimp only
  rw [if_neg hcase, if_neg (by simp only [hseen]; exact Bool.false_ne_true), hopt]
  dsimp only
  rw [requestByCase_congr (noteStep_requests _ _ _ _ _),
    requestByCase_congr (noteStep_requests _ _ _ _ _),
    requestByCase_congr (partyStep_requests _ _ _),
    (mergeDecision_forces rm st.db _ _ _ _).1,
    (mergeDecision_forces rm st.db _ _ _ _).2,
    statusFallback_some, upsert_request_byCase]
  exact ⟨_, rfl, (upsertedRequestRow_forced _ _ _ _ _ _ _ _ _ _).1,
    (upsertedRequestRow_forced _ _ _ _ _ _ _ _ _ _).2⟩

/-- Claim C1 witness: raw status In Progress plus a merge target still
stores status `closed`, archive_reason `duplicate`. -/
theorem merge_target_forces_closed_duplicate_witness :
    ∃ r', requestByCase (processRow wEnv [] [] wSt0 wRowC1).db
        (pyStrip (get_field wRowC1 [] caseKeys)) = some r' ∧
      r'.status = some "closed" ∧ r'.archive_reason = some "duplicate" := by
  exact merge_target_forces_closed_duplicate wEnv [] [] wSt0 wRowC1
    (by decide) (by decide) (by decide) (by decide)

/-- An unresolvable merge target resolves to no case number. -/
theorem resolveMergedCase_none (rm : List (String × String)) (db : DB) (rid : String)
    (h1 : dictGet rm rid = none)
    (h2 : lookup_case_number_by_source_record_id db rid = none) :
    resolveMergedCase rm db rid = (none, false) := by
  unfold resolveMergedCase
  rw [h1, h2]

/-- The merge decision at an unresolved target: forced closed/duplicate,
no resolved case number, unresolved counter, and the warning line. -/
theorem mergeDecision_unresolved (rm : List (String × String)) (db : DB)
    (cn : String) (s0 a0 : Option String) (rid : String)
    (h : resolveMergedCase rm db rid = (none, false)) :
    mergeDecision rm db cn s0 a0 (some rid) =
      (some "closed", some "duplicate", none, 1, 0, 1,
       ["WARN: merge target " ++ rid ++ " not found in file or DB (case " ++ cn ++ ")"]) := by
  unfold mergeDecision
  dsimp only
  rw [h]

/-- Fields of the stored row for an unresolved merge target: the target
id is retained, closed/duplicate forced, and on a fresh insert the
merged case number is left unset. -/
theorem upsertedRequestRow_unresolved (db : DB) (cn src : String)
    (pid qid : Option Nat) (pr : Option Int) (lbl : Option String) (nts : String)
    (rid : String) (hrid : rid ≠ "") :
    (upsertedRequestRow db cn src pid qid (some "closed") pr lbl nts
        (some "duplicate") none (some rid)).merged_into_source_record_id = some rid ∧
    (requestByCase db cn = none →
      (upsertedRequestRow db cn src pid qid (some "closed") pr lbl nts
        (some "duplicate") none (some rid)).merged_into_case_number = none) := by
  unfold upsertedRequestRow
  cases h : requestByCase db cn <;>
    simp [requestMerge, pyOrNone, coalesce, hrid]

/-- Claim C9: a row whose merge target resolves neither in the pre-scan
map nor in the database is still ingested — the batch continues, the
unresolved-target warning is logged and counted, the stored row keeps
the merge-target id with status forced closed/duplicate, and on a fresh
insert its merged case number is left unset. -/
theorem unresolved_merge_target_nonfatal
    (env : IngestEnv) (hm rm : List (String × String)) (st : IngestState) (row : Row)
    (hblank : is_blank_row row = false)
    (hcase : get_field row hm caseKeys ≠ "")
    (hseen : st.seen_case_numbers.contains (pyStrip (get_field row hm caseKeys)) = false)
    (hmerge : get_field row hm mergeTargetKeys ≠ "")
    (hmap : dictGet rm (get_field row hm mergeTargetKeys) = none)
    (hdb : lookup_case_number_by_source_record_id st.db
      (get_field row hm mergeTargetKeys) = none) :
    ("WARN: merge target " ++ get_field row hm mergeTargetKeys ++
        " not found in file or DB (case " ++ pyStrip (get_field row hm caseKeys) ++ ")") ∈
      (processRow env hm rm st row).warnings ∧
    (processRow env hm rm st row).counters.merged_case_unresolved =
      st.counters.merged_case_unresolved + 1 ∧
    ∃ r', requestByCase (processRow env hm rm st row).db
        (pyStrip (get_field row hm caseKeys)) = some r' ∧
      r'.merged_into_source_record_id = some (get_field row hm mergeTargetKeys) ∧
      r'.status = some "closed" ∧ r'.archive_reason = some "duplicate" ∧
      (requestByCase st.db (pyStrip (get_field row hm caseKeys)) = none →
        r'.merged_into_case_number = none) := by
  have hopt : optStr (get_field row hm mergeTargetKeys) =
      some (get_field row hm mergeTargetKeys) := by
    simp [optStr, hmerge]
  have hmd := mergeDecision_unresolved rm st.db (pyStrip (get_field row hm caseKeys))
    (coerce_request_status (get_field row hm ["Case Status", "Status", "status"]))
    (coerce_archive_reason (get_field row hm ["Case Status", "Status", "status"]))
    (get_field row hm mergeTargetKeys)
    (resolveMergedCase_none rm st.db _ hmap hdb)
  unfold processRow
  rw [if_neg (by simp [hblank])]
  dsimp only
  rw [if_neg hcase, if_neg (by simp only [hseen]; exact Bool.false_ne_true), hopt, hmd]
  dsimp only
  refine ⟨?_, ?_, ?_⟩
  · split_ifs <;> simp
  · rfl
  · rw [requestByCase_congr (noteStep_requests _ _ _ _ _),
      requestByCase_congr (noteStep_requests _ _ _ _ _),
      requestByCase_congr (partyStep_requests _ _ _),
      statusFallback_some, upsert_request_byCase]
    refine ⟨_, rfl, ?_, ?_, ?_, ?_⟩
    · exact (upsertedRequestRow_unresolved _ _ _ _ _ _ _ _ _ hmerge).1
    · exact (upsertedRequestRow_forced _ _ _ _ _ _ _ _ _ _).1
    · exact (upsertedRequestRow_forced _ _ _ _ _ _ _ _ _ _).2
    · intro hfresh
      refine (upsertedRequestRow_unresolved _ _ _ _ _ _ _ _ _ hmerge).2 ?_
      calc requestByCase (upsert_person (upsert_place (upsert_address st.db _ _ _ _).1 _ _ _).1 _ _ _ _).1
            (pyStrip (get_field row hm caseKeys))
          = requestByCase st.db (pyStrip (get_field row hm caseKeys)) := by
            rw [requestByCase_congr (upsert_person_requests _ _ _ _ _),
              requestByCase_congr (upsert_place_requests _ _ _ _),
              requestByCase_congr (upsert_address_requests _ _ _ _ _)]
        _ = none := hfresh

/-- Claim C9 witness: the unresolved-target row is ingested with a
warning, the counter increment, the retained target id, forced
closed/duplicate, and no merged case number. -/
theorem unresolved_merge_target_nonfatal_witness :
    ("WARN: merge target " ++ get_field wRowC9 [] mergeTargetKeys ++
        " not found in file or DB (case " ++ pyStrip (get_field wRowC9 [] caseKeys) ++ ")") ∈
      (processRow wEnv [] [] wSt0 wRowC9).warnings ∧
    (processRow wEnv [] [] wSt0 wRowC9).counters.merged_case_unresolved =
      wSt0.counters.merged_case_unresolved + 1 ∧
    ∃ r', requestByCase (processRow wEnv [] [] wSt0 wRowC9).db
        (pyStrip (get_field wRowC9 [] caseKeys)) = some r' ∧
      r'.merged_into_source_record_id = some (get_field wRowC9 [] mergeTargetKeys) ∧
      r'.status = some "closed" ∧ r'.archive_reason = some "duplicate" ∧
      (requestByCase wSt0.db (pyStrip (get_field wRowC9 [] caseKeys)) = none →
        r'.merged_into_case_number = none) := by
  exact unresolved_merge_target_nonfatal wEnv [] [] wSt0 wRowC9
    (by decide) (by decide) (by decide) (by decide) (by decide) (by decide)

/-! Claim C10: in-file duplicate case numbers are skipped. -/

/-- A non-blank row with an already-seen case number is a pure
counter bump: no table changes, no new seen entry, no warnings. -/
theorem processRow_dupe_skip (env : IngestEnv) (hm rm : List (String × String))
    (st : IngestState) (row : Row)
    (hblank : is_blank_row row = false)
    (hcase : get_field row hm caseKeys ≠ "")
    (hseen : st.seen_case_numbers.contains (pyStrip (get_field row hm caseKeys)) = true) :
    processRow env hm rm st row =
      { st with counters := { st.counters with
          skipped_dupe_case_in_file := st.counters.skipped_dupe_case_in_file + 1 } } := by
  unfold processRow
  rw [if_neg (by simp [hblank])]
  dsimp only
  rw [if_neg hcase, if_pos hseen]

/-- Processing a row never removes entries from the seen set. -/
theorem processRow_seen_mono (env : IngestEnv) (hm rm : List (String × String))
    (st : IngestState) (row : Row) (x : String)
    (hx : x ∈ st.seen_case_numbers) :
    x ∈ (processRow env hm rm st row).seen_case_numbers := by
  unfold processRow
  by_cases h1 : is_blank_row row = true
  · rw [if_pos h1]
    exact hx
  · rw [if_neg h1]
    dsimp only
    by_cases h2 : get_field row hm caseKeys = ""
    · rw [if_pos h2]
      exact hx
    · rw [if_neg h2]
      by_cases h3 : st.seen_case_numbers.contains (pyStrip (get_field row hm caseKeys)) = true
      · rw [if_pos h3]
        exact hx
      · rw [if_neg h3]
        dsimp only
        exact List.mem_append_left _ hx

/-- After processing a non-blank row with a case number, that case
number is in the seen set. -/
theorem processRow_seen_mem (env : IngestEnv) (hm rm : List (String × String))
    (st : IngestState) (row : Row)
    (hblank : is_blank_row row = false)
    (hcase : get_field row hm caseKeys ≠ "") :
    pyStrip (get_field row hm caseKeys) ∈ (processRow env hm rm st row).seen_case_numbers := by
  unfold processRow
  rw [if_neg (by simp [hblank])]
  dsimp only
  rw [if_neg hcase]
  by_cases h3 : st.seen_case_numbers.contains (pyStrip (get_field row hm caseKeys)) = true
  · rw [if_pos h3]
    exact List.mem_of_elem_eq_true h3
  · rw [if_neg h3]
    dsimp only
    exact List.mem_append_right _ (List.mem_singleton_self _)

/-- Folding more rows never removes entries from the seen set. -/
theorem foldl_seen_mono (env : IngestEnv) (hm rm : List (String × String))
    (rows : List Row) (st : IngestState) (x : String)
    (hx : x ∈ st.seen_case_numbers) :
    x ∈ (rows.foldl (processRow env hm rm) st).seen_case_numbers := by
  induction rows generalizing st with
  | nil => exact hx
  | cons row rest ih =>
    exact ih (processRow env hm rm st row) (processRow_seen_mono env hm rm st row x hx)

/-- Claim C10: if a non-blank row earlier in the file already carried the
same case number, the later row is skipped before any write — the loop
state is unchanged except for the `skipped_dupe_case_in_file` counter —
and this skipping step is exactly the j-th step of `run_ingest`. -/
theorem dupe_case_in_file_skipped
    (env : IngestEnv) (fieldnames : List String) (rows : List Row) (db0 : DB)
    (i j : Nat) (rowi rowj : Row)
    (hij : i < j)
    (hri : rows.get? i = some rowi) (hrj : rows.get? j = some rowj)
    (hbi : is_blank_row rowi = false) (hbj : is_blank_row rowj = false)
    (hci : get_field rowi (normalize_csv_headers fieldnames) caseKeys ≠ "")
    (hcj : get_field rowj (normalize_csv_headers fieldnames) caseKeys ≠ "")
    (hsame : pyStrip (get_field rowi (normalize_csv_headers fieldnames) caseKeys) =
             pyStrip (get_field rowj (normalize_csv_headers fieldnames) caseKeys)) :
    processRow env (normalize_csv_headers fieldnames)
        (build_rid_to_case_number_map fieldnames rows)
        (ingestStateAfter env fieldnames rows db0 j) rowj =
      { ingestStateAfter env fieldnames rows db0 j with
        counters := { (ingestStateAfter env fieldnames rows db0 j).counters with
          skipped_dupe_case_in_file :=
            (ingestStateAfter env fieldnames rows db0 j).counters.skipped_dupe_case_in_file + 1 } } ∧
    ingestStateAfter env fieldnames rows db0 (j + 1) =
      processRow env (normalize_csv_headers fieldnames)
        (build_rid_to_case_number_map fieldnames rows)
        (ingestStateAfter env fieldnames rows db0 j) rowj ∧
    run_ingest env fieldnames rows db0 = ingestStateAfter env fieldnames rows db0 rows.length := by
  have hmem : pyStrip (get_field rowj (normalize_csv_headers fieldnames) caseKeys) ∈
      (ingestStateAfter env fieldnames rows db0 j).seen_case_numbers := by
    rw [← hsame]
    have hsplit : rows.take j = rows.take (i + 1) ++ (rows.take j).drop (i + 1) := by
      conv_lhs => rw [← List.take_append_drop (i + 1) (rows.take j)]
      rw [List.take_take, min_eq_left (by omega)]
    have hri2 : rows[i]? = some rowi := by rwa [List.get?_eq_getElem?] at hri
    have htake : rows.take (i + 1) = rows.take i ++ [rowi] := by
      rw [List.take_succ, hri2]
      rfl
    unfold ingestStateAfter
    rw [hsplit, List.foldl_append, htake, List.foldl_append]
    apply foldl_seen_mono
    exact processRow_seen_mem _ _ _ _ _ hbi hci
  refine ⟨?_, ?_, ?_⟩
  · exact processRow_dupe_skip _ _ _ _ _ hbj hcj (List.elem_eq_true_of_mem hmem)
  · have hrj2 : rows[j]? = some rowj := by rwa [List.get?_eq_getElem?] at hrj
    unfold ingestStateAfter
    rw [List.take_succ, hrj2, List.foldl_append]
    rfl
  · unfold run_ingest ingestStateAfter
    rw [List.take_length]

/-- Claim C10 witness: the second C-7 row of a concrete two-row file is
skipped as a pure counter bump inside the run. -/
theorem dupe_case_in_file_skipped_witness :
    processRow wEnv (normalize_csv_headers ["Case Number", "Case Status", "First Name"])
        (build_rid_to_case_number_map ["Case Number", "Case Status", "First Name"]
          [wRowC10a, wRowC10b])
        (ingestStateAfter wEnv ["Case Number", "Case Status", "First Name"]
          [wRowC10a, wRowC10b] wEmptyDB 1) wRowC10b =
      { ingestStateAfter wEnv ["Case Number", "Case Status", "First Name"]
          [wRowC10a, wRowC10b] wEmptyDB 1 with
        counters := { (ingestStateAfter wEnv ["Case Number", "Case Status", "First Name"]
            [wRowC10a, wRowC10b] wEmptyDB 1).counters with
          skipped_dupe_case_in_file :=
            (ingestStateAfter wEnv ["Case Number", "Case Status", "First Name"]
              [wRowC10a, wRowC10b] wEmptyDB 1).counters.skipped_dupe_case_in_file + 1 } } ∧
    ingestStateAfter wEnv ["Case Number", "Case Status", "First Name"]
        [wRowC10a, wRowC10b] wEmptyDB 2 =
      processRow wEnv (normalize_csv_headers ["Case Number", "Case Status", "First Name"])
        (build_rid_to_case_number_map ["Case Number", "Case Status", "First Name"]
          [wRowC10a, wRowC10b])
        (ingestStateAfter wEnv ["Case Number", "Case Status", "First Name"]
          [wRowC10a, wRowC10b] wEmptyDB 1) wRowC10b ∧
    run_ingest wEnv ["Case Number", "Case Status", "First Name"]
        [wRowC10a, wRowC10b] wEmptyDB =
      ingestStateAfter wEnv ["Case Number", "Case Status", "First Name"]
        [wRowC10a, wRowC10b] wEmptyDB ([wRowC10a, wRowC10b] : List Row).length := by
  exact dupe_case_in_file_skipped wEnv ["Case Number", "Case Status", "First Name"]
    [wRowC10a, wRowC10b] wEmptyDB 0 1 wRowC10a wRowC10b
    (by decide) rfl rfl (by decide) (by decide)
    (by decide) (by decide) (by decide)

/-! Claim C2: the pre-scan map resolves same-file references without the
database. -/

/-- Lookup of a freshly inserted key. -/
theorem dictGet_dictInsert_self (m : List (String × String)) (k v : String) :
    dictGet (dictInsert m k v) k = some v := by
  induction m with
  | nil => simp [dictInsert, dictGet]
  | cons kv rest ih =>
    by_cases h : kv.1 = k
    · simp [dictInsert, h, dictGet]
    · simp [dictInsert, h, dictGet, List.find?_cons_of_neg]
      simpa [dictGet] using ih

/-- Insertion under a different key does not change a lookup. -/
theorem dictGet_dictInsert_ne (m : List (String × String)) (k v k2 : String)
    (h : k2 ≠ k) : dictGet (dictInsert m k v) k2 = dictGet m k2 := by
  induction m with
  | nil =>
    unfold dictInsert dictGet
    rw [List.find?_cons_of_neg _ (by simpa using Ne.symm h)]
  | cons kv rest ih =>
    unfold dictInsert
    by_cases hk : kv.1 = k
    · rw [if_pos hk]
      unfold dictGet
      rw [List.find?_cons_of_neg _ (by simpa using Ne.symm h),
        List.find?_cons_of_neg _ (by simp [hk]; exact Ne.symm h)]
    · rw [if_neg hk]
      by_cases hk2 : kv.1 = k2
      · unfold dictGet
        rw [List.find?_cons_of_pos _ (by simpa using hk2),
          List.find?_cons_of_pos _ (by simpa using hk2)]
      · unfold dictGet
        rw [List.find?_cons_of_neg _ (by simpa using hk2),
          List.find?_cons_of_neg _ (by simpa using hk2)]
        exact ih

/-- Folding the pre-scan over rows that bind record id `r` only to case
number `c` ends with `r` mapped to `c`, as soon as the map already says
so or some remaining row carries the binding. -/
theorem prescan_fold (hm : List (String × String)) (r c : String)
    (hr : r ≠ "") (hc : c ≠ "") :
    ∀ (rows : List Row) (m : List (String × String)),
      (∀ row2 ∈ rows, get_field row2 hm ridKeysPrescan = r →
        get_field row2 hm caseKeys ≠ "" → get_field row2 hm caseKeys = c) →
      (dictGet m r = some c ∨
        ∃ row1 ∈ rows, get_field row1 hm ridKeysPrescan = r ∧
          get_field row1 hm caseKeys = c) →
      dictGet (rows.foldl (prescanStep hm) m) r = some c := by
  intro rows
  induction rows with
  | nil =>
    intro m _ hstart
    rcases hstart with h | ⟨row1, hmem, -⟩
    · exact h
    · simp at hmem
  | cons row rest ih =>
    intro m huniq hstart
    show dictGet (rest.foldl (prescanStep hm) (prescanStep hm m row)) r = some c
    apply ih
    · intro row2 h2 ha hb
      exact huniq row2 (List.mem_cons_of_mem row h2) ha hb
    · rcases hstart with hsome | ⟨row1, hmem, hrid1, hcase1⟩
      · left
        unfold prescanStep
        dsimp only
        split_ifs with hcond
        · by_cases heq : get_field row hm ridKeysPrescan = r
          · have hcase2 := huniq row (List.mem_cons_self row rest) heq hcond.2
            rw [heq, hcase2, dictGet_dictInsert_self]
          · rw [dictGet_dictInsert_ne _ _ _ _ (fun hh => heq hh.symm)]
            exact hsome
        · exact hsome
      · rcases List.mem_cons.mp hmem with rfl | hmem2
        · left
          unfold prescanStep
          dsimp only
          rw [if_pos ⟨by rw [hrid1]; exact hr, by rw [hcase1]; exact hc⟩,
            hrid1, hcase1, dictGet_dictInsert_self]
        · right
          exact ⟨row1, hmem2, hrid1, hcase1⟩

/-- Claim C2: the record-id map is built from the entire file before any
write, so a merge target equal to the record id of any row of the file
that carries a (unique) case number resolves to that case number from
the in-memory map alone — the resolution result is the same for every
database state, i.e. no database lookup is involved. -/
theorem same_file_forward_reference
    (fieldnames : List String) (rows : List Row) (row1 : Row) (r c : String)
    (hmem : row1 ∈ rows)
    (hrid : get_field row1 (normalize_csv_headers fieldnames) ridKeysPrescan = r)
    (hcn : get_field row1 (normalize_csv_headers fieldnames) caseKeys = c)
    (hr : r ≠ "") (hc : c ≠ "")
    (huniq : ∀ row2 ∈ rows,
      get_field row2 (normalize_csv_headers fieldnames) ridKeysPrescan = r →
      get_field row2 (normalize_csv_headers fieldnames) caseKeys ≠ "" →
      get_field row2 (normalize_csv_headers fieldnames) caseKeys = c) :
    dictGet (build_rid_to_case_number_map fieldnames rows) r = some c ∧
    ∀ db : DB, resolveMergedCase (build_rid_to_case_number_map fieldnames rows) db r =
      (some c, true) := by
  have hmap : dictGet (build_rid_to_case_number_map fieldnames rows) r = some c := by
    unfold build_rid_to_case_number_map
    exact prescan_fold (normalize_csv_headers fieldnames) r c hr hc rows []
      huniq (Or.inr ⟨row1, hmem, hrid, hcn⟩)
  refine ⟨hmap, fun db => ?_⟩
  unfold resolveMergedCase
  rw [hmap]

/-- Claim C2 witness: R9 resolves to CASE-042 from the pre-scan map of
the two-row file, for every database state. -/
theorem same_file_forward_reference_witness :
    dictGet (build_rid_to_case_number_map
      ["Case Number", "Record ID", "LookupRecordIDPrimaryReq"]
      [wRowC2a, wRowC2b]) "R9" = some "CASE-042" ∧
    ∀ db : DB, resolveMergedCase (build_rid_to_case_number_map
      ["Case Number", "Record ID", "LookupRecordIDPrimaryReq"]
      [wRowC2a, wRowC2b]) db "R9" = (some "CASE-042", true) := by
  exact same_file_forward_reference
    ["Case Number", "Record ID", "LookupRecordIDPrimaryReq"]
    [wRowC2a, wRowC2b] wRowC2b "R9" "CASE-042"
    (by simp) (by decide) (by decide) (by decide) (by decide) (by decide)

/-! Claim C3: blank incoming values never erase stored data. -/

/-- Updating an existing person stores the field-wise coalesce. -/
theorem upsert_person_existing (db : DB) (first last email phone pKey : String)
    (p : PersonRow)
    (hpk : personKeyOf first last email phone = some pKey)
    (hp : db.people.find? (fun x => x.person_key = pKey) = some p) :
    (upsert_person db first last email phone).1.people.find?
        (fun x => x.person_key = pKey) =
      some (personMerge (optStr first) (optStr last)
        (optStr (pyLower (pyStrip email))) (optStr (normalize_phone phone))
        (if pyStrip phone ≠ "" then some (dbNormalizePhone (pyStrip phone)) else none) p) := by
  have hkey : ∀ x : PersonRow, (decide (x.person_key = pKey)) = true →
      (decide ((personMerge (optStr first) (optStr last)
        (optStr (pyLower (pyStrip email))) (optStr (normalize_phone phone))
        (if pyStrip phone ≠ "" then some (dbNormalizePhone (pyStrip phone)) else none)
        x).person_key = pKey)) = true := by
    intro x hx
    simpa [personMerge] using hx
  unfold upsert_person
  rw [hpk]
  dsimp only
  rw [hp]
  dsimp only
  rw [find?_updateFirst _ _ hkey, hp]
  rfl

/-- A blank address is a complete no-op. -/
theorem upsert_address_blank (db : DB) (lat lng : Option ℚ) (fmt : Option String) :
    upsert_address db "" lat lng fmt = (db, none, false) := by
  unfold upsert_address
  rw [if_pos rfl]

/-- Updating an existing address stores the merge row. -/
theorem upsert_address_existing (db : DB) (raw : String) (lat lng : Option ℚ)
    (fmt : Option String) (a : AddressRow)
    (hraw : raw ≠ "")
    (ha : db.addresses.find? (fun x => x.address_key = addressKeyOf raw) = some a) :
    (upsert_address db raw lat lng fmt).1.addresses.find?
        (fun x => x.address_key = addressKeyOf raw) =
      some (addressMerge raw (pyOrNone fmt) lat lng a) := by
  have hkey : ∀ x : AddressRow, (decide (x.address_key = addressKeyOf raw)) = true →
      (decide ((addressMerge raw (pyOrNone fmt) lat lng x).address_key =
        addressKeyOf raw)) = true := by
    intro x hx
    simpa [addressMerge] using hx
  unfold upsert_address
  rw [if_neg hraw]
  dsimp only
  rw [ha]
  dsimp only
  rw [find?_updateFirst _ _ hkey, ha]
  rfl

/-- A place with blank name and blank address is a complete no-op. -/
theorem upsert_place_blank (db : DB) (aid : Option Nat) :
    upsert_place db aid "" "" = (db, none, false) := by
  unfold upsert_place
  rw [if_pos ⟨rfl, rfl⟩]

/-- Updating an existing place stores the merge row. -/
theorem upsert_place_existing (db : DB) (aid : Option Nat) (pn raw : String)
    (pl : PlaceRow)
    (hne : ¬(raw = "" ∧ pn = ""))
    (hpl : db.places.find? (fun x => x.place_key = placeKeyOf pn raw) = some pl) :
    (upsert_place db aid pn raw).1.places.find?
        (fun x => x.place_key = placeKeyOf pn raw) =
      some (placeMerge (if pn ≠ "" then pn else raw) aid pl) := by
  have hkey : ∀ x : PlaceRow, (decide (x.place_key = placeKeyOf pn raw)) = true →
      (decide ((placeMerge (if pn ≠ "" then pn else raw) aid x).place_key =
        placeKeyOf pn raw)) = true := by
    intro x hx
    simpa [placeMerge] using hx
  unfold upsert_place
  rw [if_neg hne]
  dsimp only
  rw [hpl]
  dsimp only
  rw [find?_updateFirst _ _ hkey, hpl]
  rfl

/-- Claim C3: for every upsert whose stable key matches a stored row
(person, request, place, address) and every merged field, a blank or
absent incoming value leaves the stored value unchanged; moreover a
fully blank address (or place) input writes nothing at all. -/
theorem blank_never_overwrites
    (dbP : DB) (first last email phone pKey : String) (p : PersonRow)
    (hpk : personKeyOf first last email phone = some pKey)
    (hp : dbP.people.find? (fun x => x.person_key = pKey) = some p)
    (dbR : DB) (cn src : String) (pid qid : Option Nat) (st : Option String)
    (pr : Option Int) (lbl : Option String) (nts : String) (arch mcn msri : Option String)
    (r : RequestRow) (hr : requestByCase dbR cn = some r)
    (dbA : DB) (rawA : String) (lat lng : Option ℚ) (fmt : Option String) (a : AddressRow)
    (hrawA : rawA ≠ "")
    (ha : dbA.addresses.find? (fun x => x.address_key = addressKeyOf rawA) = some a)
    (dbL : DB) (aid : Option Nat) (pn rawL : String) (pl : PlaceRow)
    (hneL : ¬(rawL = "" ∧ pn = ""))
    (hpl : dbL.places.find? (fun x => x.place_key = placeKeyOf pn rawL) = some pl) :
    (∃ p2, (upsert_person dbP first last email phone).1.people.find?
        (fun x => x.person_key = pKey) = some p2 ∧
      (first = "" → p2.first_name = p.first_name) ∧
      (last = "" → p2.last_name = p.last_name) ∧
      (pyLower (pyStrip email) = "" → p2.email = p.email) ∧
      (normalize_phone phone = "" → p2.phone = p.phone) ∧
      (pyStrip phone = "" → p2.phone_normalized = p.phone_normalized)) ∧
    (∃ r2, requestByCase (upsert_request dbR cn src pid qid st pr lbl nts
        arch mcn msri).1 cn = some r2 ∧
      (src = "" → r2.source_record_id = r.source_record_id) ∧
      (pid = none → r2.primary_place_id = r.primary_place_id) ∧
      (qid = none → r2.primary_contact_person_id = r.primary_contact_person_id) ∧
      (pyOrNone st = none → r2.status = r.status) ∧
      (pyOrNoneInt pr = none → r2.priority = r.priority) ∧
      (pyOrNone lbl = none → r2.priority_label = r.priority_label) ∧
      (nts = "" → r2.notes = r.notes) ∧
      (pyOrNone arch = none → r2.archive_reason = r.archive_reason ∧
        r2.archived_at = r.archived_at) ∧
      (pyOrNone mcn = none → r2.merged_into_case_number = r.merged_into_case_number) ∧
      (pyOrNone msri = none →
        r2.merged_into_source_record_id = r.merged_into_source_record_id)) ∧
    (upsert_address dbA "" lat lng fmt = (dbA, none, false)) ∧
    (∃ a2, (upsert_address dbA rawA lat lng fmt).1.addresses.find?
        (fun x => x.address_key = addressKeyOf rawA) = some a2 ∧
      (pyOrNone fmt = none → a2.formatted_address = a.formatted_address) ∧
      (lat = none → a2.latitude = a.latitude) ∧
      (lng = none → a2.longitude = a.longitude) ∧
      a2.geom = a.geom ∧ a2.address_key = a.address_key) ∧
    (upsert_place dbL aid "" "" = (dbL, none, false)) ∧
    (∃ pl2, (upsert_place dbL aid pn rawL).1.places.find?
        (fun x => x.place_key = placeKeyOf pn rawL) = some pl2 ∧
      (aid = none → pl2.address_id = pl.address_id)) := by
  refine ⟨?_, ?_, upsert_address_blank dbA lat lng fmt, ?_,
    upsert_place_blank dbL aid, ?_⟩
  · refine ⟨_, upsert_person_existing dbP first last email phone pKey p hpk hp,
      ?_, ?_, ?_, ?_, ?_⟩
    · intro h
      simp [personMerge, optStr, coalesce, h]
    · intro h
      simp [personMerge, optStr, coalesce, h]
    · intro h
      simp [personMerge, optStr, coalesce, h]
    · intro h
      simp [personMerge, optStr, coalesce, h]
    · intro h
      simp [personMerge, optStr, coalesce, h]
  · rw [upsert_request_byCase]
    refine ⟨_, rfl, ?_, ?_, ?_, ?_, ?_, ?_, ?_, ?_, ?_, ?_⟩ <;>
      unfold upsertedRequestRow <;> rw [hr] <;> intro h <;>
      simp [requestMerge, optStr, coalesce, h]
  · refine ⟨_, upsert_address_existing dbA rawA lat lng fmt a hrawA ha,
      ?_, ?_, ?_, ?_, ?_⟩
    · intro h
      simp [addressMerge, coalesce, h]
    · intro h
      simp [addressMerge, coalesce, h]
    · intro h
      simp [addressMerge, coalesce, h]
    · simp [addressMerge]
    · simp [addressMerge]
  · refine ⟨_, upsert_place_existing dbL aid pn rawL pl hneL hpl, ?_⟩
    intro h
    simp [placeMerge, coalesce, h]

/-- Claim C3 witness: fully blank incoming rows over fully populated
stored rows leave every stored field unchanged in all four upserts. -/
theorem blank_never_overwrites_witness :
    (∃ p2, (upsert_person wDbP "" "" "" "555-111-2222").1.people.find?
        (fun x => x.person_key = "phone:5551112222") = some p2 ∧
      ("" = "" → p2.first_name = wPerC3.first_name) ∧
      ("" = "" → p2.last_name = wPerC3.last_name) ∧
      (pyLower (pyStrip "") = "" → p2.email = wPerC3.email) ∧
      (normalize_phone "555-111-2222" = "" → p2.phone = wPerC3.phone) ∧
      (pyStrip "555-111-2222" = "" → p2.phone_normalized = wPerC3.phone_normalized)) ∧
    (∃ r2, requestByCase (upsert_request wDbR "C-1" "" none none none none none ""
        none none none).1 "C-1" = some r2 ∧
      ("" = "" → r2.source_record_id = wReqC3.source_record_id) ∧
      ((none : Option Nat) = none → r2.primary_place_id = wReqC3.primary_place_id) ∧
      ((none : Option Nat) = none →
        r2.primary_contact_person_id = wReqC3.primary_contact_person_id) ∧
      (pyOrNone none = none → r2.status = wReqC3.status) ∧
      (pyOrNoneInt none = none → r2.priority = wReqC3.priority) ∧
      (pyOrNone none = none → r2.priority_label = wReqC3.priority_label) ∧
      ("" = "" → r2.notes = wReqC3.notes) ∧
      (pyOrNone none = none → r2.archive_reason = wReqC3.archive_reason ∧
        r2.archived_at = wReqC3.archived_at) ∧
      (pyOrNone none = none →
        r2.merged_into_case_number = wReqC3.merged_into_case_number) ∧
      (pyOrNone none = none →
        r2.merged_into_source_record_id = wReqC3.merged_into_source_record_id)) ∧
    (upsert_address wDbA "" none none none = (wDbA, none, false)) ∧
    (∃ a2, (upsert_address wDbA "1 Main St" none none none).1.addresses.find?
        (fun x => x.address_key = addressKeyOf "1 Main St") = some a2 ∧
      (pyOrNone none = none → a2.formatted_address = wAddrC3.formatted_address) ∧
      ((none : Option ℚ) = none → a2.latitude = wAddrC3.latitude) ∧
      ((none : Option ℚ) = none → a2.longitude = wAddrC3.longitude) ∧
      a2.geom = wAddrC3.geom ∧ a2.address_key = wAddrC3.address_key) ∧
    (upsert_place wDbL none "" "" = (wDbL, none, false)) ∧
    (∃ pl2, (upsert_place wDbL none "" "1 Main St").1.places.find?
        (fun x => x.place_key = placeKeyOf "" "1 Main St") = some pl2 ∧
      ((none : Option Nat) = none → pl2.address_id = wPlC3.address_id)) := by
  exact blank_never_overwrites
    wDbP "" "" "" "555-111-2222" "phone:5551112222" wPerC3 (by decide) rfl
    wDbR "C-1" "" none none none none none "" none none none wReqC3 rfl
    wDbA "1 Main St" none none none wAddrC3 (by decide) rfl
    wDbL none "" "1 Main St" wPlC3 (by decide) rfl

end Atlas
